import Mathlib

/-!
Verification development for the RepRapFirmware G-code interpreter core
(src/GCodes.cpp, src/Platform.cpp).

The source is shallowly embedded: C++ member functions become pure Lean
functions over explicit state records, `float` values become rationals
(the spec data model speaks of real numbers), and C character buffers
become lists of `Char`.  Reads past a buffer are modelled as returning the
NUL character; every store into a buffer additionally records, in the
ghost field `oob`, whether its index was past the capacity, so that
memory-safety claims can be stated about the model.
-/

namespace RepRap

/-- Modelled from the spec: the fixed Command Buffer capacity.  The source
uses the header constant GCODE_LENGTH, declared outside src/; the spec only
says the buffer is of fixed capacity, and the claims do not depend on the
exact value. -/
def gcodeLength : Nat := 100

/-- The NUL character, the C string terminator. -/
def nul : Char := Char.ofNat 0

/-- Read a buffer cell; out-of-range reads yield NUL (the C array is
surrounded by other zero-initialised state in practice; reachable states
keep a NUL terminator inside the buffer). -/
def bufGet (g : List Char) (i : Nat) : Char := g.getD i nul

/-- State of GCodeBuffer (src/GCodes.cpp:2721-2835).  `data` is gcodeBuffer,
`writingFile` abstracts `writingFileDirectory != NULL`.  `oob` and
`overflowReported` are ghost instrumentation: `oob` becomes true if any
store ever targets an index at or past the capacity, and `overflowReported`
records the "G Code buffer length overflow." platform message. -/
structure GCodeBuffer where
  data : List Char
  gcodePointer : Nat
  inComment : Bool
  writingFile : Bool
  oob : Bool
  overflowReported : Bool
deriving Repr, DecidableEq

/-- A single store `gcodeBuffer[i] = c`, with the ghost out-of-bounds flag. -/
def storeChar (b : GCodeBuffer) (i : Nat) (c : Char) : GCodeBuffer :=
  { b with data := b.data.set i c, oob := b.oob || decide (b.data.length ≤ i) }

/-- GCodeBuffer::Init (src/GCodes.cpp:2728-2734): reset cursors and flags.
The read pointer is not part of the state here because the field accessors
below are functional (they recompute the scan a call to Seen performs). -/
def bufInit (b : GCodeBuffer) : GCodeBuffer :=
  { b with gcodePointer := 0, inComment := false }

/-- Scan loop of GCodeBuffer::Seen (src/GCodes.cpp:2840-2852): find tag `c`
scanning from index `i`, stopping at NUL or at a comment start. -/
def seenFrom (g : List Char) (c : Char) : Nat → Nat → Option Nat
  | _, 0 => none
  | i, fuel + 1 =>
    let b := bufGet g i
    if b = nul ∨ b = ';' then none
    else if b = c then some i
    else seenFrom g c (i + 1) fuel

/-- GCodeBuffer::Seen: index of tag letter `c` in the buffer, if present
before the terminator. -/
def seen (g : List Char) (c : Char) : Option Nat :=
  seenFrom g c 0 (g.length + 1)

/-- Whitespace test of the C library `isspace`, used by strtol/strtod. -/
def isWSpace (c : Char) : Bool :=
  c = ' ' || c = '\t' || c = '\n' || c = '\r' || c = Char.ofNat 11 || c = Char.ofNat 12

/-- Index of the first non-whitespace character at or after `i`. -/
def skipWs (g : List Char) : Nat → Nat → Nat
  | i, 0 => i
  | i, fuel + 1 => if isWSpace (bufGet g i) then skipWs g (i + 1) fuel else i

/-- Value of `c` as a digit in base `base` (10 or 16 or 8), if it is one. -/
def digitVal (base : Nat) (c : Char) : Option Nat :=
  let n := c.toNat
  if 48 ≤ n ∧ n ≤ 57 ∧ n - 48 < base then some (n - 48)
  else if base = 16 ∧ 97 ≤ n ∧ n ≤ 102 then some (n - 87)
  else if base = 16 ∧ 65 ≤ n ∧ n ≤ 70 then some (n - 55)
  else none

/-- Accumulate consecutive digits of the given base starting at index `i`. -/
def parseU (g : List Char) (base : Nat) : Nat → Nat → Nat → Nat
  | _, acc, 0 => acc
  | i, acc, fuel + 1 =>
    match digitVal base (bufGet g i) with
    | some d => parseU g base (i + 1) (acc * base + d) fuel
    | none => acc

/-- Model of `strtol(&gcodeBuffer[i], 0, 0)` as called by
GCodeBuffer::GetLValue (src/GCodes.cpp:3008-3019): skip whitespace, an
optional sign, then digits, with the C base-0 prefix rules (0x = hex,
leading 0 = octal).  The C library function is outside the repository; this
follows its specified behaviour on the in-range integers G-code carries. -/
def strtolAt (g : List Char) (i : Nat) : Int :=
  let fuel := g.length + 1
  let j := skipWs g i fuel
  let sgn : Int := if bufGet g j = '-' then -1 else 1
  let k := if bufGet g j = '-' ∨ bufGet g j = '+' then j + 1 else j
  if bufGet g k = '0' then
    let c1 := bufGet g (k + 1)
    if (c1 = 'x' ∨ c1 = 'X') ∧ (digitVal 16 (bufGet g (k + 2))).isSome then
      sgn * Int.ofNat (parseU g 16 (k + 2) 0 fuel)
    else
      sgn * Int.ofNat (parseU g 8 k 0 fuel)
  else if (digitVal 10 (bufGet g k)).isSome then
    sgn * Int.ofNat (parseU g 10 k 0 fuel)
  else 0

/-- Accumulate consecutive decimal digits, also counting them (used for the
fractional part of strtod). -/
def parseUCount (g : List Char) : Nat → Nat → Nat → Nat → Nat × Nat × Nat
  | i, acc, cnt, 0 => (acc, cnt, i)
  | i, acc, cnt, fuel + 1 =>
    match digitVal 10 (bufGet g i) with
    | some d => parseUCount g (i + 1) (acc * 10 + d) (cnt + 1) fuel
    | none => (acc, cnt, i)

/-- Model of `strtod(&gcodeBuffer[i], 0)` as called by
GCodeBuffer::GetFValue (src/GCodes.cpp:2856-2867): skip whitespace, an
optional sign, an integer part and an optional fractional part.  The C
library function is outside the repository; this follows its behaviour on
the decimal numeric tokens of the G-code grammar (spec section 6); the
exponent, hex-float and inf/nan forms never occur in those tokens. -/
def strtodAt (g : List Char) (i : Nat) : ℚ :=
  let fuel := g.length + 1
  let j := skipWs g i fuel
  let sgn : ℚ := if bufGet g j = '-' then -1 else 1
  let k := if bufGet g j = '-' ∨ bufGet g j = '+' then j + 1 else j
  let ip := parseUCount g k 0 0 fuel
  let whole : ℚ := (ip.1 : ℚ)
  if bufGet g ip.2.2 = '.' then
    let fp := parseUCount g (ip.2.2 + 1) 0 0 fuel
    sgn * (whole + (fp.1 : ℚ) / ((10 : ℚ) ^ fp.2.1))
  else
    sgn * whole

/-- Loop of GCodeBuffer::CheckSum (src/GCodes.cpp:2736-2745): XOR of the
buffer bytes before the first `*` or NUL. -/
def checkSumAux (g : List Char) : Nat → Nat → Nat → Nat
  | _, cs, 0 => cs
  | i, cs, fuel + 1 =>
    let c := bufGet g i
    if c = '*' ∨ c = nul then cs
    else checkSumAux g (i + 1) (cs ^^^ c.toNat) fuel

/-- GCodeBuffer::CheckSum, including the final `& 0xff`. -/
def checkSum (g : List Char) : Nat :=
  checkSumAux g 0 0 (g.length + 1) &&& 255

/-- Accumulate the decimal digits of a natural number (least significant
digit peeled off first, so the accumulator ends most significant first);
the fuel argument makes the recursion structural. -/
def natDigitsAux : Nat → Nat → List Char → List Char
  | _, 0, acc => acc
  | n, fuel + 1, acc =>
    if n < 10 then Char.ofNat (48 + n) :: acc
    else natDigitsAux (n / 10) fuel (Char.ofNat (48 + n % 10) :: acc)

/-- Decimal digits of a natural number, most significant first. -/
def natDigits (n : Nat) : List Char := natDigitsAux n (n + 1) []

/-- Decimal rendering of an integer, as produced by the `%d` conversion of
snprintf. -/
def intDecimal (i : Int) : List Char :=
  if i < 0 then '-' :: natDigits (-i).toNat else natDigits i.toNat

/-- The characters of the synthetic resend request `M998 P<n>` built by
`snprintf(gcodeBuffer, GCODE_LENGTH, "M998 P%d", GetIValue())`
(src/GCodes.cpp:2780). -/
def resendChars (n : Int) : List Char :=
  'M' :: '9' :: '9' :: '8' :: ' ' :: 'P' :: intDecimal n

/-- Model of `snprintf(gcodeBuffer, GCODE_LENGTH, ...)` writing string `s`:
at most GCODE_LENGTH - 1 characters are stored, followed by a NUL; the
bytes beyond the terminator keep their previous values. -/
def writeCString (b : GCodeBuffer) (s : List Char) : GCodeBuffer :=
  let t := s.take (gcodeLength - 1)
  { b with data := t ++ nul :: b.data.drop (t.length + 1) }

/-- Loop `while (gcodeBuffer[gcodePointer] != ' ' && gcodeBuffer[gcodePointer])`
(src/GCodes.cpp:2788-2791): first index at or after `i` holding a space or
NUL. -/
def scanToSpace (g : List Char) : Nat → Nat → Nat
  | i, 0 => i
  | i, fuel + 1 =>
    let c := bufGet g i
    if c = ' ' ∨ c = nul then i else scanToSpace g (i + 1) fuel

/-- Copy loop stripping the line number and checksum in place
(src/GCodes.cpp:2807-2812): copy bytes from `src` down to `gp2` until a `*`
or NUL is read; returns the state after the loop and the final `gp2`. -/
def stripCopy (b : GCodeBuffer) : Nat → Nat → Nat → GCodeBuffer × Nat
  | _, gp2, 0 => (b, gp2)
  | src, gp2, fuel + 1 =>
    let c := bufGet b.data src
    if c = '*' ∨ c = nul then (b, gp2)
    else stripCopy (storeChar b gp2 c) (src + 1) (gp2 + 1) fuel

/-- Result of GCodeBuffer::Put: the new buffer state and the returned
boolean (`true` means the line is complete and armed). -/
structure PutResult where
  buf : GCodeBuffer
  armed : Bool
deriving Repr, DecidableEq

/-- The trailing overflow check of Put (src/GCodes.cpp:2827-2832): on
cursor overflow report the error, reset the cursor and NUL the first byte. -/
def overflowCheck (b : GCodeBuffer) (r : Bool) : PutResult :=
  if gcodeLength ≤ b.gcodePointer then
    let b := { b with overflowReported := true, gcodePointer := 0 }
    { buf := storeChar b 0 nul, armed := r }
  else
    { buf := b, armed := r }

/-- GCodeBuffer::Put (src/GCodes.cpp:2750-2835).  One byte is appended; on a
terminator the line is finalised: the checksum field, when present, is
verified (a mismatch replaces the line by a resend request and returns
early), and the line number and checksum are stripped in place. -/
def put (b0 : GCodeBuffer) (c : Char) : PutResult :=
  let b1 := storeChar b0 b0.gcodePointer c
  let b2 := if c = ';' then { b1 with inComment := true } else b1
  if c = '\n' ∨ c = nul then
    let b3 := storeChar b2 b2.gcodePointer nul
    let b4 := bufInit b3
    match seen b4.data '*' with
    | none => overflowCheck b4 true
    | some star =>
      let csSent := strtolAt b4.data (star + 1)
      let csHere : Int := Int.ofNat (checkSum b4.data)
      if csSent ≠ csHere then
        let ln : Int :=
          match seen b4.data 'N' with
          | some n => strtolAt b4.data (n + 1)
          | none => 0
        { buf := bufInit (writeCString b4 (resendChars ln)), armed := true }
      else
        let p := scanToSpace b4.data 0 (b4.data.length + 1)
        if bufGet b4.data p = nul then
          { buf := bufInit (storeChar b4 0 nul), armed := true }
        else
          let sc := stripCopy b4 (p + 1) 0 (b4.data.length + 1)
          overflowCheck (bufInit (storeChar sc.1 sc.2 nul)) true
  else
    let b3 :=
      if (!b2.inComment || b2.writingFile) = true then
        { b2 with gcodePointer := b2.gcodePointer + 1 }
      else b2
    overflowCheck b3 false

/-- The C-string view of the buffer: the characters before the first NUL. -/
def cString (g : List Char) : List Char := g.takeWhile (fun c => ¬c = nul)

/-- Well-formedness of a buffer state: full capacity allocated and the write
cursor strictly inside it (established by Init and preserved by Put). -/
def wfBuf (b : GCodeBuffer) : Prop :=
  b.data.length = gcodeLength ∧ b.gcodePointer < gcodeLength

/-- A freshly initialised buffer. -/
def emptyBuf : GCodeBuffer :=
  { data := List.replicate gcodeLength nul, gcodePointer := 0, inComment := false,
    writingFile := false, oob := false, overflowReported := false }

/-- Feed a list of bytes one at a time through Put. -/
def feedAll (b : GCodeBuffer) (cs : List Char) : GCodeBuffer :=
  cs.foldl (fun b c => (put b c).buf) b

/-! ### The interpreter state (class GCodes) -/

/-- Modelled from the spec: the number of motion axes (X, Y, Z).  The header
constant AXES is declared outside src/. -/
def AXES : Nat := 3

/-- Modelled from the spec: the total number of drives (axes plus one
extruder drive in this build).  The header constant DRIVES is declared
outside src/. -/
def DRIVES : Nat := 4

/-- Modelled from the spec: the fixed State Stack capacity.  The header
constant STACK is declared outside src/; the claims do not depend on the
exact value. -/
def STACK : Nat := 5

/-- Modelled from the spec: `distanceScale` is 25.4 for inches (the header
constant INCH_TO_MM is declared outside src/). -/
def inchToMm : ℚ := 254 / 10

/-- Modelled from the spec: the axis tag letters, the extrusion letter and
the feedrate letter (the header constant GCODE_LETTERS is declared outside
src/; spec sections 3 and 4.6 name them X, Y, Z, E, F). -/
def gCodeLetters : List Char := ['X', 'Y', 'Z', 'E', 'F']

/-- State of class GCodes (src/GCodes.cpp), restricted to the fields the
claims touch, together with the observable state of its external
collaborators.  `plannerIdle` models `Move::AllMovesAreFinished()` and
`plannerPos` the DRIVES+1 values written by
`Move::GetCurrentUserPosition` (positions and feedrate); both belong to
the external planner (spec section 6).  `currentToolDrives` is the drive
index list of `reprap.GetCurrentTool()` (none when no tool is selected).
`fileBeingPrinted` and the entries of `fileStack` are abstract file
references (none = not live).  `mustHomeXYBeforeZ`, `axisMinima`,
`axisMaxima` and `instantDv` are the Platform queries the modelled code
consults. -/
structure GCodes where
  drivesRelative : Bool
  axesRelative : Bool
  distanceScale : ℚ
  lastPos : List ℚ
  moveBuffer : List ℚ
  moveAvailable : Bool
  checkEndStops : Bool
  waitingForMoveToComplete : Bool
  axisIsHomed : List Bool
  speedFactor : ℚ
  speedFactorChange : ℚ
  extrusionFactors : List ℚ
  limitAxes : Bool
  stackPointer : Nat
  drivesRelativeStack : List Bool
  axesRelativeStack : List Bool
  feedrateStack : List ℚ
  fileStack : List (Option Nat)
  fileBeingPrinted : Option Nat
  homeX : Bool
  homeY : Bool
  homeZ : Bool
  currentToolDrives : Option (List Nat)
  axisMinima : List ℚ
  axisMaxima : List ℚ
  mustHomeXYBeforeZ : Bool
  instantDv : ℚ
  plannerIdle : Bool
  plannerPos : List ℚ
deriving Repr, DecidableEq

/-- Read a rational vector cell (0.0 past the end). -/
def getQ (v : List ℚ) (i : Nat) : ℚ := v.getD i 0

/-- GCodes::AllMovesAreFinishedAndMoveBufferIsLoaded
(src/GCodes.cpp:246-262): fails while a move is pending or the planner
queue is not drained; on success loads moveBuffer with the planner user
position and feedrate (GetCurrentUserPosition is modelled as always able
to accept, per its comment "should never happen"). -/
def allMovesAreFinishedAndMoveBufferIsLoaded (s : GCodes) : Option GCodes :=
  if s.moveAvailable then none
  else if ¬s.plannerIdle then none
  else some { s with moveBuffer := s.plannerPos }

/-- GCodes::Push (src/GCodes.cpp:267-285): on stack overflow report and
discard (returning true); otherwise wait for the gate, then capture the
relative modes, the feedrate and the file read position. -/
def push (s : GCodes) : GCodes × Bool :=
  if STACK ≤ s.stackPointer then (s, true)
  else
    match allMovesAreFinishedAndMoveBufferIsLoaded s with
    | none => (s, false)
    | some t =>
      ({ t with
          drivesRelativeStack := t.drivesRelativeStack.set t.stackPointer t.drivesRelative,
          axesRelativeStack := t.axesRelativeStack.set t.stackPointer t.axesRelative,
          feedrateStack := t.feedrateStack.set t.stackPointer (getQ t.moveBuffer DRIVES),
          fileStack := t.fileStack.set t.stackPointer t.fileBeingPrinted,
          stackPointer := t.stackPointer + 1 }, true)

/-- GCodes::Pop (src/GCodes.cpp:289-320): on stack underflow report
(returning true); otherwise wait for the gate, restore the captured modes
and file position, copy the freshly loaded extruder positions into the
accumulators, install the captured feedrate as a null move, clear the
endstop-check flag and mark one move pending. -/
def pop (s : GCodes) : GCodes × Bool :=
  if s.stackPointer = 0 then (s, true)
  else
    match allMovesAreFinishedAndMoveBufferIsLoaded s with
    | none => (s, false)
    | some t =>
      let sp := t.stackPointer - 1
      let t :=
        { t with
            stackPointer := sp,
            drivesRelative := t.drivesRelativeStack.getD sp false,
            axesRelative := t.axesRelativeStack.getD sp false,
            fileBeingPrinted := t.fileStack.getD sp none }
      let t := { t with lastPos := (List.range (DRIVES - AXES)).map (fun i => getQ t.moveBuffer (AXES + i)) }
      let t := { t with moveBuffer := t.moveBuffer.set DRIVES (t.feedrateStack.getD sp 0) }
      ({ t with checkEndStops := false, moveAvailable := true }, true)

/-- Token scan inside GCodeBuffer::GetFloatArray (src/GCodes.cpp:2896-2899):
advance past the current numeric token, stopping at NUL, a space or the
list separator `:`. -/
def scanToken (g : List Char) : Nat → Nat → Nat
  | i, 0 => i
  | i, fuel + 1 =>
    let c := bufGet g i
    if c = nul ∨ c = ' ' ∨ c = ':' then i else scanToken g (i + 1) fuel

/-- Loop of GCodeBuffer::GetFloatArray (src/GCodes.cpp:2871-2917): read a
colon-separated float list starting at tag index `rp`; `none` is the
"array that is too long" error path (which zeroes the returned length). -/
def getFloatArrayAux (g : List Char) (maxLen : Nat) : Nat → List ℚ → Nat → Option (List ℚ)
  | _, _, 0 => none
  | rp, acc, fuel + 1 =>
    if maxLen ≤ acc.length then none
    else
      let acc := acc ++ [strtodAt g (rp + 1)]
      let rp := scanToken g (rp + 1) (g.length + 1)
      if bufGet g rp = ':' then getFloatArrayAux g maxLen rp acc fuel
      else some acc

/-- GCodeBuffer::GetFloatArray: the parsed values and the returned length,
including the single-entry broadcast special case
(src/GCodes.cpp:2906-2914). -/
def getFloatArray (g : List Char) (tagIdx : Nat) (reqLen : Nat) : List ℚ × Nat :=
  match getFloatArrayAux g reqLen tagIdx [] (reqLen + 2) with
  | none => ([], 0)
  | some acc =>
    if acc.length = 1 ∧ 1 < reqLen then (List.replicate reqLen (acc.getD 0 0), reqLen)
    else (acc, acc.length)

/-- Extrusion section of GCodes::LoadMoveBufferFromGCode
(src/GCodes.cpp:330-377): `none` is the error return (no tool selected, or
wrong number of extruder drives); otherwise zero every extruder slot of the
move record, then apply the per-drive accumulator update. -/
def loadExtrusion (s : GCodes) (g : List Char) (doingG92 : Bool) : Option GCodes :=
  match seen g 'E' with
  | none => some s
  | some eIdx =>
    match s.currentToolDrives with
    | none => none
    | some drives =>
      let pr := getFloatArray g eIdx drives.length
      if ¬drives.length = pr.2 then none
      else
        let mb0 := (List.range (DRIVES - AXES)).foldl (fun mb k => mb.set (AXES + k) 0) s.moveBuffer
        let st := (List.range pr.2).foldl
          (fun (st : List ℚ × List ℚ) eDrive =>
            let drive := drives.getD eDrive 0
            let moveArg := (pr.1.getD eDrive 0) * s.distanceScale
            if doingG92 then
              (st.1.set (drive + AXES) 0, st.2.set drive moveArg)
            else if s.drivesRelative then
              (st.1.set (drive + AXES) (moveArg * getQ s.extrusionFactors drive),
               st.2.set drive (getQ st.2 drive + moveArg))
            else
              (st.1.set (drive + AXES) ((moveArg - getQ st.2 drive) * getQ s.extrusionFactors drive),
               st.2.set drive moveArg))
          (mb0, s.lastPos)
        some { s with moveBuffer := st.1, lastPos := st.2 }

/-- Body of the axis loop of GCodes::LoadMoveBufferFromGCode
(src/GCodes.cpp:381-406): scale by distanceScale, apply relative mode
(never for G92), clamp homed X and Y to the platform limits (never for G92
or endstop moves), and record that a G92 axis is now treated as homed. -/
def loadOneAxis (g : List Char) (doingG92 applyLimits : Bool) (s : GCodes) (axis : Nat) :
    GCodes :=
  match seen g (gCodeLetters.getD axis 'X') with
  | none => s
  | some i =>
    let moveArg := strtodAt g (i + 1) * s.distanceScale
    let moveArg :=
      if s.axesRelative ∧ ¬doingG92 then moveArg + getQ s.moveBuffer axis else moveArg
    let moveArg :=
      if applyLimits ∧ axis < 2 ∧ s.axisIsHomed.getD axis false ∧ ¬doingG92 then
        if moveArg < getQ s.axisMinima axis then getQ s.axisMinima axis
        else if getQ s.axisMaxima axis < moveArg then getQ s.axisMaxima axis
        else moveArg
      else moveArg
    let s := { s with moveBuffer := s.moveBuffer.set axis moveArg }
    if doingG92 then { s with axisIsHomed := s.axisIsHomed.set axis true } else s

/-- Axis section of GCodes::LoadMoveBufferFromGCode: the loop over the
axes. -/
def loadAxes (s : GCodes) (g : List Char) (doingG92 applyLimits : Bool) : GCodes :=
  (List.range AXES).foldl (loadOneAxis g doingG92 applyLimits) s

/-- Feedrate section of GCodes::LoadMoveBufferFromGCode
(src/GCodes.cpp:410-413): wire feedrates are distance units per minute;
`speedFactor` (1/60 by default) converts to mm per second. -/
def loadFeedrate (s : GCodes) (g : List Char) : GCodes :=
  match seen g 'F' with
  | none => s
  | some i =>
    { s with moveBuffer := s.moveBuffer.set DRIVES (strtodAt g (i + 1) * s.distanceScale * s.speedFactor) }

/-- GCodes::LoadMoveBufferFromGCode (src/GCodes.cpp:326-416): the boolean is
the C return value (false on the extrusion error paths, which leave the
state unchanged because they return before any mutation). -/
def loadMoveBufferFromGCode (s : GCodes) (g : List Char) (doingG92 applyLimits : Bool) :
    GCodes × Bool :=
  match loadExtrusion s g doingG92 with
  | none => (s, false)
  | some s1 => (loadFeedrate (loadAxes s1 g doingG92 applyLimits) g, true)

/-- GCodes::SetUpMove (src/GCodes.cpp:425-451): returns 0 when the Move Slot
is still pending, otherwise loads the current position, applies the pending
speed-factor change, reads the S endstop flag, fills the move record and
returns 2 for an endstop-checking move, 1 otherwise. -/
def setUpMove (s : GCodes) (g : List Char) : GCodes × Nat :=
  if s.moveAvailable then (s, 0)
  else
    let s := { s with moveBuffer := s.plannerPos }
    let s :=
      { s with
          moveBuffer := s.moveBuffer.set DRIVES (getQ s.moveBuffer DRIVES * s.speedFactorChange),
          speedFactorChange := 1 }
    let ce : Bool :=
      match seen g 'S' with
      | some i => decide (strtolAt g (i + 1) = 1)
      | none => false
    let s := { s with checkEndStops := ce }
    let lr := loadMoveBufferFromGCode s g false (!ce && s.limitAxes)
    ({ lr.1 with moveAvailable := lr.2 }, if ce then 2 else 1)

/-- GCodes::ReadMove (src/GCodes.cpp:455-467): the planner consumes the Move
Slot; `none` means no move was pending (the caller's array and endstop flag
are then untouched).  On success the returned pair carries all DRIVES+1
values and the endstop-check flag, and both the pending flag and the stored
endstop-check flag are cleared. -/
def readMove (s : GCodes) : Option (List ℚ × Bool) × GCodes :=
  if ¬s.moveAvailable then (none, s)
  else (some (s.moveBuffer, s.checkEndStops), { s with moveAvailable := false, checkEndStops := false })

/-- GCodes::SetPositions (src/GCodes.cpp:573-589), the G92 handler: wait for
the gate, load the move record in G92 mode without limits, then install the
result as the planner position with the stationary feedrate
`platform->InstantDv(platform->SlowestDrive())`.  The planner Transform is
modelled from the spec in its default identity state (the bed transform
lives in the external Move class, spec section 6). -/
def setPositions (s : GCodes) (g : List Char) : GCodes × Bool :=
  match allMovesAreFinishedAndMoveBufferIsLoaded s with
  | none => (s, false)
  | some t =>
    let lr := loadMoveBufferFromGCode t g true false
    if lr.2 then
      ({ lr.1 with plannerPos := lr.1.moveBuffer.take DRIVES ++ [lr.1.instantDv] }, true)
    else (lr.1, true)

/-- G0/G1 case of GCodes::HandleGcode (src/GCodes.cpp:1641-1662): while an
endstop-checking move is in flight the handler only polls the completion
gate; otherwise it sets the move up, entering the waiting state when
SetUpMove returns 2. -/
def handleG01 (s : GCodes) (g : List Char) : GCodes × Bool :=
  if s.waitingForMoveToComplete then
    match allMovesAreFinishedAndMoveBufferIsLoaded s with
    | none => (s, false)
    | some t => ({ t with waitingForMoveToComplete := false }, true)
  else
    let r := setUpMove s g
    (if r.2 = 2 then { r.1 with waitingForMoveToComplete := true } else r.1, decide (r.2 = 1))

/-- GCodes::HandleGcode (src/GCodes.cpp:1630-1741) on the G-codes the claims
exercise (0/1, 20, 21, 90, 91, 92); `none` marks a code whose handler
(dwell, probing, homing, offsets) is modelled separately or not needed. -/
def handleGcode (s : GCodes) (g : List Char) : Option (GCodes × Bool) :=
  match seen g 'G' with
  | none => none
  | some i =>
    let code := strtolAt g (i + 1)
    if code = 0 ∨ code = 1 then some (handleG01 s g)
    else if code = 20 then some ({ s with distanceScale := inchToMm }, true)
    else if code = 21 then some ({ s with distanceScale := 1 }, true)
    else if code = 90 then some ({ s with drivesRelative := false, axesRelative := false }, true)
    else if code = 91 then some ({ s with drivesRelative := true, axesRelative := true }, true)
    else if code = 92 then some (setPositions s g)
    else none

/-- GCodes::HandleMcode (src/GCodes.cpp:1743-2608) on the M-codes the claims
exercise: M82/M83 (src/GCodes.cpp:1867-1881) reset every extruder
accumulator and set the drive mode, M120/M121 push and pop the state stack,
M998 only formats a resend reply; `none` marks an unmodelled code. -/
def handleMcode (s : GCodes) (g : List Char) : Option (GCodes × Bool) :=
  match seen g 'M' with
  | none => none
  | some i =>
    let code := strtolAt g (i + 1)
    if code = 82 then
      some ({ s with
                lastPos := (List.range (DRIVES - AXES)).foldl (fun l k => l.set k 0) s.lastPos,
                drivesRelative := false }, true)
    else if code = 83 then
      some ({ s with
                lastPos := (List.range (DRIVES - AXES)).foldl (fun l k => l.set k 0) s.lastPos,
                drivesRelative := true }, true)
    else if code = 120 then some (push s)
    else if code = 121 then some (pop s)
    else if code = 998 then some (s, true)
    else none

/-- GCodes::ActOnCode (src/GCodes.cpp:1605-1628): test M before G before T;
a buffer with none of the tags is discarded (completing immediately).
T-codes drive the tool-change cycle, which no claim exercises. -/
def actOnCode (s : GCodes) (g : List Char) : Option (GCodes × Bool) :=
  if (seen g 'M').isSome then handleMcode s g
  else if (seen g 'G').isSome then handleGcode s g
  else if (seen g 'T').isSome then none
  else some (s, true)

/-! ### DoHome (src/GCodes.cpp:653-712) -/

/-- Modelled from the spec: the Z-homing macro file name (the header
constant HOME_Z_G is declared outside src/; spec section 4.5 names it
homez.g, and similarly for the others). -/
def homeZFile : List Char := 'h' :: 'o' :: 'm' :: 'e' :: 'z' :: '.' :: 'g' :: []

/-- Modelled from the spec: the X-homing macro file name. -/
def homeXFile : List Char := 'h' :: 'o' :: 'm' :: 'e' :: 'x' :: '.' :: 'g' :: []

/-- Modelled from the spec: the Y-homing macro file name. -/
def homeYFile : List Char := 'h' :: 'o' :: 'm' :: 'e' :: 'y' :: '.' :: 'g' :: []

/-- Modelled from the spec: the home-all macro file name. -/
def homeAllFile : List Char :=
  'h' :: 'o' :: 'm' :: 'e' :: 'a' :: 'l' :: 'l' :: '.' :: 'g' :: []

/-- The error reply written when Z homing is requested before X and Y are
homed (src/GCodes.cpp:693). -/
def mustHomeFirstMsg : List Char :=
  ('M' :: 'u' :: 's' :: 't' :: ' ' :: 'h' :: 'o' :: 'm' :: 'e' :: ' ' :: 'X' :: []) ++
  (' ' :: 'a' :: 'n' :: 'd' :: ' ' :: 'Y' :: ' ' :: []) ++
  ('b' :: 'e' :: 'f' :: 'o' :: 'r' :: 'e' :: ' ' :: []) ++
  ('h' :: 'o' :: 'm' :: 'i' :: 'n' :: 'g' :: ' ' :: 'Z' :: [])

/-- GCodes::NoHome (declared in the GCodes header): no axis homing request
is outstanding. -/
def noHome (s : GCodes) : Bool := !(s.homeX || s.homeY || s.homeZ)

/-- Outcome of one GCodes::DoHome invocation: the new state, the returned
boolean, the error reply (written only on error, src/GCodes.cpp:651-652)
and, as a ghost observation, the canned-cycle macro file handed to
DoFileCannedCycles during this invocation. -/
structure HomeResult where
  s : GCodes
  done : Bool
  errorReply : Option (List Char)
  invoked : Option (List Char)
deriving Repr, DecidableEq

/-- GCodes::DoHome (src/GCodes.cpp:653-712).  `macroDone` abstracts the
return value of the multi-tick macro engine DoFileCannedCycles for this
invocation.  Z homing is refused with an error when the platform requires
X and Y first (Platform::MustHomeXYBeforeZ, src/Platform.cpp:575-578) and
either is not homed. -/
def doHome (s : GCodes) (macroDone : Bool) : HomeResult :=
  if s.homeX ∧ s.homeY ∧ s.homeZ then
    if macroDone then
      { s := { s with homeX := false, homeY := false, homeZ := false },
        done := true, errorReply := none, invoked := some homeAllFile }
    else { s := s, done := false, errorReply := none, invoked := some homeAllFile }
  else if s.homeX then
    if macroDone then
      let t := { s with homeX := false }
      { s := t, done := noHome t, errorReply := none, invoked := some homeXFile }
    else { s := s, done := false, errorReply := none, invoked := some homeXFile }
  else if s.homeY then
    if macroDone then
      let t := { s with homeY := false }
      { s := t, done := noHome t, errorReply := none, invoked := some homeYFile }
    else { s := s, done := false, errorReply := none, invoked := some homeYFile }
  else if s.homeZ then
    if s.mustHomeXYBeforeZ ∧ (¬s.axisIsHomed.getD 0 false ∨ ¬s.axisIsHomed.getD 1 false) then
      { s := { s with homeZ := false }, done := true,
        errorReply := some mustHomeFirstMsg, invoked := none }
    else if macroDone then
      let t := { s with homeZ := false }
      { s := t, done := noHome t, errorReply := none, invoked := some homeZFile }
    else { s := s, done := false, errorReply := none, invoked := some homeZFile }
  else
    { s := { s with checkEndStops := false, moveAvailable := false },
      done := true, errorReply := none, invoked := none }

/-! ### The dispatcher (GCodes::Spin, src/GCodes.cpp:125-234)

The three transports and the print file are explicit; the effect of a
dispatched command on the interpreter is the abstract handler `act` over a
type parameter `α`, returning the finished flag that SetFinished records
(a command dispatched from a drain loop of a single tick starts with no
canned cycle in flight, so it cannot read the print file during that tick:
DoFileCannedCycles only reads when `doingCannedCycleFile` was already
true, src/GCodes.cpp:469-522, which keeps the originating buffer active).
`ranFilePrint` is ghost instrumentation recording whether the invocation
reached DoFilePrint. -/

/-- State visible to the Spin dispatcher. -/
structure SpinSys (α : Type) where
  webActive : Bool
  serialActive : Bool
  fileActive : Bool
  webBuf : GCodeBuffer
  serialBuf : GCodeBuffer
  fileBuf : GCodeBuffer
  webQueue : List Char
  serialQueue : List Char
  serialUploadingWebFile : Bool
  fileLive : Bool
  filePos : Nat
  fileData : List Char
  interp : α

/-- Result of one Spin invocation, with ghost observations. -/
structure SpinOut (α : Type) where
  sys : SpinSys α
  webConsumed : Nat
  serialConsumed : Nat
  ranFilePrint : Bool

/-- GCodes::DoFilePrint (src/GCodes.cpp:101-123): read one byte of the
print file (synthesizing a newline and closing at EOF) and feed it through
the file buffer; a completed line is dispatched. -/
def doFilePrint (act : α → α × Bool) (sys : SpinSys α) : SpinOut α :=
  if sys.fileLive then
    if sys.filePos < sys.fileData.length then
      let b := bufGet sys.fileData sys.filePos
      let pr := put sys.fileBuf b
      let sys := { sys with fileBuf := pr.buf, filePos := sys.filePos + 1 }
      let sys :=
        if pr.armed then
          let ar := act sys.interp
          { sys with interp := ar.1, fileActive := !ar.2 }
        else sys
      { sys := sys, webConsumed := 0, serialConsumed := 0, ranFilePrint := true }
    else
      let pr := put sys.fileBuf '\n'
      let sys := { sys with fileBuf := pr.buf }
      let sys :=
        if pr.armed then
          let ar := act sys.interp
          { sys with interp := ar.1, fileActive := !ar.2 }
        else sys
      { sys := { sys with fileLive := false },
        webConsumed := 0, serialConsumed := 0, ranFilePrint := true }
  else
    { sys := sys, webConsumed := 0, serialConsumed := 0, ranFilePrint := true }

/-- The web drain loop of Spin (src/GCodes.cpp:162-185): read up to 16
bytes, stopping after the first completed line, which is routed to the
file-capture writer or dispatched.  `writeG` abstracts WriteGCodeToFile. -/
def webDrain (act : α → α × Bool) (writeG : α → α) :
    SpinSys α → Nat → Nat → SpinOut α
  | sys, consumed, 0 =>
    { sys := sys, webConsumed := consumed, serialConsumed := 0, ranFilePrint := false }
  | sys, consumed, fuel + 1 =>
    match sys.webQueue with
    | [] =>
      { sys := sys, webConsumed := consumed, serialConsumed := 0, ranFilePrint := false }
    | b :: rest =>
      let pr := put sys.webBuf b
      let sys := { sys with webBuf := pr.buf, webQueue := rest }
      if pr.armed then
        if sys.webBuf.writingFile then
          { sys := { sys with interp := writeG sys.interp },
            webConsumed := consumed + 1, serialConsumed := 0, ranFilePrint := false }
        else
          let ar := act sys.interp
          { sys := { sys with interp := ar.1, webActive := !ar.2 },
            webConsumed := consumed + 1, serialConsumed := 0, ranFilePrint := false }
      else webDrain act writeG sys (consumed + 1) fuel

/-- The serial drain loop of Spin (src/GCodes.cpp:203-228), identical in
shape to the web drain. -/
def serialDrain (act : α → α × Bool) (writeG : α → α) :
    SpinSys α → Nat → Nat → SpinOut α
  | sys, consumed, 0 =>
    { sys := sys, webConsumed := 0, serialConsumed := consumed, ranFilePrint := false }
  | sys, consumed, fuel + 1 =>
    match sys.serialQueue with
    | [] =>
      { sys := sys, webConsumed := 0, serialConsumed := consumed, ranFilePrint := false }
    | b :: rest =>
      let pr := put sys.serialBuf b
      let sys := { sys with serialBuf := pr.buf, serialQueue := rest }
      if pr.armed then
        if sys.serialBuf.writingFile then
          { sys := { sys with interp := writeG sys.interp },
            webConsumed := 0, serialConsumed := consumed + 1, ranFilePrint := false }
        else
          let ar := act sys.interp
          { sys := { sys with interp := ar.1, serialActive := !ar.2 },
            webConsumed := 0, serialConsumed := consumed + 1, ranFilePrint := false }
      else serialDrain act writeG sys (consumed + 1) fuel

/-- GCodes::Spin (src/GCodes.cpp:125-234): continue any active buffer in
priority order (web, serial, file); otherwise drain the web transport, or
the serial transport (whose special HTML-upload bypass `writeHtml` falls
through to the file), and only reach DoFilePrint when the interactive
sources are silent. -/
def spin (act : α → α × Bool) (writeG : α → α) (writeHtml : Char → α → α)
    (sys : SpinSys α) : SpinOut α :=
  if sys.webActive then
    let ar := act sys.interp
    { sys := { sys with interp := ar.1, webActive := !ar.2 },
      webConsumed := 0, serialConsumed := 0, ranFilePrint := false }
  else if sys.serialActive then
    let ar := act sys.interp
    { sys := { sys with interp := ar.1, serialActive := !ar.2 },
      webConsumed := 0, serialConsumed := 0, ranFilePrint := false }
  else if sys.fileActive then
    let ar := act sys.interp
    { sys := { sys with interp := ar.1, fileActive := !ar.2 },
      webConsumed := 0, serialConsumed := 0, ranFilePrint := false }
  else if ¬sys.webQueue.isEmpty then
    webDrain act writeG sys 0 16
  else if sys.serialUploadingWebFile then
    let sys :=
      match sys.serialQueue with
      | [] => sys
      | b :: rest => { sys with serialQueue := rest, interp := writeHtml b sys.interp }
    doFilePrint act sys
  else if ¬sys.serialQueue.isEmpty then
    serialDrain act writeG sys 0 16
  else
    doFilePrint act sys

/-! ### Whole-pipeline helpers for the concrete scenarios -/

/-- The GCodes state after GCodes::Init and GCodes::Reset
(src/GCodes.cpp:45-99): millimetre units, relative drives, absolute axes,
default speed factor 1/60, limits on, nothing homed, empty stack, no tool.
The planner starts drained at the origin; the move record starts zeroed
(it is written before first use). -/
def initGCodes : GCodes :=
  { drivesRelative := true
    axesRelative := false
    distanceScale := 1
    lastPos := List.replicate (DRIVES - AXES) 0
    moveBuffer := List.replicate (DRIVES + 1) 0
    moveAvailable := false
    checkEndStops := false
    waitingForMoveToComplete := false
    axisIsHomed := List.replicate AXES false
    speedFactor := 1 / 60
    speedFactorChange := 1
    extrusionFactors := List.replicate (DRIVES - AXES) 1
    limitAxes := true
    stackPointer := 0
    drivesRelativeStack := List.replicate STACK false
    axesRelativeStack := List.replicate STACK false
    feedrateStack := List.replicate STACK 0
    fileStack := List.replicate STACK none
    fileBeingPrinted := none
    homeX := false
    homeY := false
    homeZ := false
    currentToolDrives := none
    axisMinima := List.replicate AXES 0
    axisMaxima := [230, 210, 120]
    mustHomeXYBeforeZ := false
    instantDv := 1 / 10
    plannerIdle := true
    plannerPos := List.replicate (DRIVES + 1) 0 }

/-- Feed one byte into a buffer and, when it completes a line, dispatch it
through ActOnCode (the single-source path of Spin for commands that finish
in one invocation, as all commands of the concrete scenarios do). -/
def feedByte (st : GCodes × GCodeBuffer) (c : Char) : GCodes × GCodeBuffer :=
  let pr := put st.2 c
  if pr.armed then
    match actOnCode st.1 pr.buf.data with
    | some r => (r.1, pr.buf)
    | none => (st.1, pr.buf)
  else (st.1, pr.buf)

/-- Feed a whole line of bytes through `feedByte`. -/
def feedLine (st : GCodes × GCodeBuffer) (cs : List Char) : GCodes × GCodeBuffer :=
  cs.foldl feedByte st

/-- Well-formedness of the interpreter state: every fixed-capacity vector
has its declared length. -/
def wfM (s : GCodes) : Prop :=
  s.moveBuffer.length = DRIVES + 1 ∧ s.lastPos.length = DRIVES - AXES ∧
  s.axisIsHomed.length = AXES ∧ s.extrusionFactors.length = DRIVES - AXES ∧
  s.drivesRelativeStack.length = STACK ∧ s.axesRelativeStack.length = STACK ∧
  s.feedrateStack.length = STACK ∧ s.fileStack.length = STACK ∧
  s.plannerPos.length = DRIVES + 1

/-- A concrete interpreter state for the push/pop scenario: the extruder
accumulator holds 5 while the planner user position is elsewhere, the
planner is drained and no move is pending. -/
def c3Start : GCodes :=
  { initGCodes with lastPos := [5], plannerPos := [1, 2, 3, 0, 7], drivesRelative := false }

/-- A buffer that has consumed 99 ordinary bytes, reaching the last free
slot before the capacity. -/
def c2OverflowBuf : GCodeBuffer := feedAll emptyBuf (List.replicate (gcodeLength - 1) 'A')

/-- The Command Buffer after feeding the body of the S3 scenario line
`N10 G1 X1*99` (a deliberately wrong checksum: the XOR of the bytes is
80). -/
def c1Buf : GCodeBuffer :=
  feedAll emptyBuf
    ('N' :: '1' :: '0' :: ' ' :: 'G' :: '1' :: ' ' :: 'X' :: '1' :: '*' :: '9' :: '9' :: [])

/-- A machine in inch mode (after G20) with a single-drive tool selected,
used by the G92 scenario. -/
def c6Machine : GCodes :=
  { initGCodes with distanceScale := 254 / 10, currentToolDrives := some (0 :: []) }

/-- The machine after feeding `G92 E5` in inch mode. -/
def c6Run : GCodes := (feedLine (c6Machine, emptyBuf) ("G92 E5\n".data)).1

/-- A machine with a single-drive tool selected, in the default relative
extrusion mode with mm units, used by the M83 scenario. -/
def c9W : GCodes := { initGCodes with currentToolDrives := some (0 :: []) }

/-- A machine requesting Z homing on a platform that requires X and Y
first, with X and Y not homed. -/
def c7Bad : GCodes := { initGCodes with homeZ := true, mustHomeXYBeforeZ := true }

/-- The same Z-homing request with X and Y already homed. -/
def c7Good : GCodes :=
  { initGCodes with
      homeZ := true
      mustHomeXYBeforeZ := true
      axisIsHomed := [true, true, false] }

/-- One environment step between two G0/G1 handler invocations of the main
loop: the planner (Move class, outside HandleGcode) may call
GCodes::ReadMove to consume the Move Slot, and afterwards reports whether
it has finished all moves and where its user position ended up. -/
def applyEnv (s : GCodes) (e : Bool × Bool × List ℚ) : GCodes :=
  let s1 := if e.1 then (readMove s).2 else s
  { s1 with plannerIdle := e.2.1, plannerPos := e.2.2 }

/-- Repeated G0/G1 handler invocations of one buffered line, each preceded
by an environment step; returns the final state and the list of handler
return values (`false` is the retry the Spin loop acts on). -/
def runG01 (g : List Char) : GCodes → List (Bool × Bool × List ℚ) → GCodes × List Bool
  | s, [] => (s, [])
  | s, e :: es =>
    let r := handleG01 (applyEnv s e) g
    let rest := runG01 g r.1 es
    (rest.1, r.2 :: rest.2)

/-- The machine after feeding the S1 scenario lines `G20` then `G1 X1 F60`
from the freshly initialised machine. -/
def c8Run : GCodes :=
  (feedLine (feedLine (initGCodes, emptyBuf) ("G20\n".data)) ("G1 X1 F60\n".data)).1

/-- A concrete Spin system for the concurrency scenario: no buffer active,
one web byte queued, a live print file positioned at its first byte. -/
def c5Sys : SpinSys Unit :=
  { webActive := false
    serialActive := false
    fileActive := false
    webBuf := emptyBuf
    serialBuf := emptyBuf
    fileBuf := emptyBuf
    webQueue := ['G']
    serialQueue := []
    serialUploadingWebFile := false
    fileLive := true
    filePos := 0
    fileData := "G1 X1\n".data
    interp := () }

/-! ## Helper lemmas -/

theorem getD_set_same (l : List α) (i : Nat) (a d : α) (h : i < l.length) :
    (l.set i a).getD i d = a := by
  simp [List.getD_eq_getElem?_getD, List.getElem?_set_eq_of_lt a h]

theorem getD_set_other (l : List α) (i j : Nat) (a d : α) (h : ¬i = j) :
    (l.set i a).getD j d = l.getD j d := by
  simp [List.getD_eq_getElem?_getD, List.getElem?_set_ne h]

theorem getD_of_length_le (l : List α) (i : Nat) (d : α) (h : l.length ≤ i) :
    l.getD i d = d := by
  simp [List.getD_eq_getElem?_getD, List.getElem?_eq_none h]

theorem bufGet_lt_of_ne_nul (g : List Char) (i : Nat) (h : ¬bufGet g i = nul) :
    i < g.length := by
  by_contra hlt
  exact h (by simpa [bufGet] using getD_of_length_le g i nul (by omega))

theorem storeChar_fields (b : GCodeBuffer) (i : Nat) (c : Char) :
    (storeChar b i c).data.length = b.data.length ∧
    (storeChar b i c).gcodePointer = b.gcodePointer ∧
    (storeChar b i c).inComment = b.inComment ∧
    (storeChar b i c).writingFile = b.writingFile ∧
    (storeChar b i c).overflowReported = b.overflowReported := by
  simp [storeChar]

theorem storeChar_oob (b : GCodeBuffer) (i : Nat) (c : Char) (h : i < b.data.length) :
    (storeChar b i c).oob = b.oob := by
  simp [storeChar, Nat.not_le.mpr h]

theorem stripCopy_inv (fuel : Nat) :
    ∀ (b : GCodeBuffer) (src gp2 : Nat), gp2 < src → src ≤ b.data.length →
      (stripCopy b src gp2 fuel).1.data.length = b.data.length ∧
      (stripCopy b src gp2 fuel).1.oob = b.oob ∧
      (stripCopy b src gp2 fuel).1.gcodePointer = b.gcodePointer ∧
      (stripCopy b src gp2 fuel).2 < b.data.length := by
  induction fuel with
  | zero => intro b src gp2 h1 h2; simp [stripCopy]; omega
  | succ fuel ih =>
    intro b src gp2 h1 h2
    rw [stripCopy]
    by_cases hc : bufGet b.data src = '*' ∨ bufGet b.data src = nul
    · simp [hc]; omega
    · have hsrc : src < b.data.length := by
        apply bufGet_lt_of_ne_nul
        intro h; exact hc (Or.inr h)
      have hgp : gp2 < b.data.length := by omega
      have hst := storeChar_fields b gp2 (bufGet b.data src)
      have hoob := storeChar_oob b gp2 (bufGet b.data src) hgp
      have := ih (storeChar b gp2 (bufGet b.data src)) (src + 1) (gp2 + 1)
        (by omega) (by omega)
      simp only [hc, if_false]
      rw [hst.1] at this
      exact ⟨this.1, by rw [this.2.1, hoob], by rw [this.2.2.1, hst.2.1], this.2.2.2⟩

theorem writeCString_inv (b : GCodeBuffer) (s : List Char) (h : b.data.length = gcodeLength) :
    (writeCString b s).data.length = gcodeLength ∧
    (writeCString b s).oob = b.oob ∧
    (writeCString b s).gcodePointer = b.gcodePointer := by
  refine ⟨?_, rfl, rfl⟩
  have hg : gcodeLength = 100 := rfl
  simp only [writeCString, List.length_append, List.length_cons, List.length_drop,
    List.length_take, h, hg]
  omega

theorem gcodeLength_pos : 0 < gcodeLength := by decide

theorem overflowCheck_preserves (b : GCodeBuffer) (r : Bool) (h : b.data.length = gcodeLength) :
    wfBuf (overflowCheck b r).buf ∧ (overflowCheck b r).buf.oob = b.oob ∧
    (overflowCheck b r).armed = r := by
  rw [overflowCheck]
  by_cases hover : gcodeLength ≤ b.gcodePointer
  · simp only [hover, if_true]
    refine ⟨⟨?_, gcodeLength_pos⟩, ?_, by trivial⟩
    · rw [(storeChar_fields _ _ _).1]; exact h
    · exact storeChar_oob _ _ _ (by rw [h]; exact gcodeLength_pos)
  · simp only [hover, if_false]
    exact ⟨⟨h, by omega⟩, by trivial, by trivial⟩

/-! ## C2: the Command Buffer never writes past capacity -/

theorem put_preserves (b : GCodeBuffer) (c : Char) (hw : wfBuf b) :
    wfBuf (put b c).buf ∧ (put b c).buf.oob = b.oob := by
  obtain ⟨hlen, hptr⟩ := hw
  have hlen' : b.gcodePointer < b.data.length := by omega
  by_cases hterm : c = '\n' ∨ c = nul
  · -- terminator path
    have hsemi : ¬c = ';' := by
      rcases hterm with h | h <;> · subst h; decide
    rw [put]
    simp only [hterm, if_true, hsemi, if_false]
    set b1 := storeChar b b.gcodePointer c with hb1
    have h1 := storeChar_fields b b.gcodePointer c
    have h1o := storeChar_oob b b.gcodePointer c hlen'
    set b3 := storeChar b1 b1.gcodePointer nul with hb3
    have h3 := storeChar_fields b1 b1.gcodePointer nul
    have h3o : b3.oob = b.oob := by
      rw [← h1o]; apply storeChar_oob; rw [h1.1, h1.2.1]; exact hlen'
    have h3len : b3.data.length = gcodeLength := by rw [h3.1, h1.1, hlen]
    have h3ilen : (bufInit b3).data.length = gcodeLength := h3len
    have h3io : (bufInit b3).oob = b.oob := h3o
    rcases hstar : seen (bufInit b3).data '*' with _ | star
    · simp only [hstar]
      have hoc := overflowCheck_preserves (bufInit b3) true h3ilen
      exact ⟨hoc.1, by rw [hoc.2.1]; exact h3io⟩
    · simp only [hstar]
      by_cases hcs : ¬strtolAt (bufInit b3).data (star + 1) = Int.ofNat (checkSum (bufInit b3).data)
      · simp only [if_pos hcs]
        have hwc := writeCString_inv (bufInit b3)
          (resendChars (match seen (bufInit b3).data 'N' with
            | some n => strtolAt (bufInit b3).data (n + 1)
            | none => 0)) h3ilen
        refine ⟨⟨?_, gcodeLength_pos⟩, ?_⟩
        · exact hwc.1
        · show (writeCString (bufInit b3) _).oob = b.oob
          rw [hwc.2.1]; exact h3io
      · simp only [if_neg hcs]
        by_cases hp : bufGet (bufInit b3).data (scanToSpace (bufInit b3).data 0
            ((bufInit b3).data.length + 1)) = nul
        · simp only [if_pos hp]
          refine ⟨⟨?_, gcodeLength_pos⟩, ?_⟩
          · show (storeChar (bufInit b3) 0 nul).data.length = gcodeLength
            rw [(storeChar_fields _ _ _).1]; exact h3ilen
          · show (storeChar (bufInit b3) 0 nul).oob = b.oob
            rw [storeChar_oob _ _ _ (by rw [h3ilen]; exact gcodeLength_pos)]
            exact h3io
        · simp only [if_neg hp]
          have hplt : scanToSpace (bufInit b3).data 0 ((bufInit b3).data.length + 1) <
              (bufInit b3).data.length := bufGet_lt_of_ne_nul _ _ hp
          have hsc := stripCopy_inv ((bufInit b3).data.length + 1) (bufInit b3)
            (scanToSpace (bufInit b3).data 0 ((bufInit b3).data.length + 1) + 1) 0
            (by omega) (by omega)
          set sc := stripCopy (bufInit b3)
            (scanToSpace (bufInit b3).data 0 ((bufInit b3).data.length + 1) + 1) 0
            ((bufInit b3).data.length + 1) with hscdef
          have hlen4 : (bufInit (storeChar sc.1 sc.2 nul)).data.length = gcodeLength := by
            show (storeChar sc.1 sc.2 nul).data.length = gcodeLength
            rw [(storeChar_fields _ _ _).1, hsc.1]; exact h3ilen
          have hoob4 : (bufInit (storeChar sc.1 sc.2 nul)).oob = b.oob := by
            show (storeChar sc.1 sc.2 nul).oob = b.oob
            rw [storeChar_oob _ _ _ (by rw [hsc.1]; exact hsc.2.2.2), hsc.2.1]; exact h3io
          have hoc := overflowCheck_preserves (bufInit (storeChar sc.1 sc.2 nul)) true hlen4
          exact ⟨hoc.1, by rw [hoc.2.1]; exact hoob4⟩
  · -- ordinary byte
    rw [put]
    simp only [hterm, if_false]
    set b1 := storeChar b b.gcodePointer c with hb1
    have h1 := storeChar_fields b b.gcodePointer c
    have h1o := storeChar_oob b b.gcodePointer c hlen'
    have hb2 : ∀ b2 : GCodeBuffer, b2.data.length = gcodeLength → b2.oob = b.oob →
        b2.gcodePointer = b.gcodePointer →
        wfBuf (overflowCheck (if (!b2.inComment || b2.writingFile) = true then
            { b2 with gcodePointer := b2.gcodePointer + 1 } else b2) false).buf ∧
        (overflowCheck (if (!b2.inComment || b2.writingFile) = true then
            { b2 with gcodePointer := b2.gcodePointer + 1 } else b2) false).buf.oob = b.oob := by
      intro b2 hl ho hp
      by_cases hinc : (!b2.inComment || b2.writingFile) = true
      · rw [if_pos hinc]
        have hoc := overflowCheck_preserves { b2 with gcodePointer := b2.gcodePointer + 1 } false hl
        exact ⟨hoc.1, by rw [hoc.2.1]; exact ho⟩
      · rw [if_neg hinc]
        have hoc := overflowCheck_preserves b2 false hl
        exact ⟨hoc.1, by rw [hoc.2.1]; exact ho⟩
    by_cases hsemi : c = ';'
    · simp only [hsemi, if_true]
      exact hb2 { b1 with inComment := true } (by rw [h1.1]; exact hlen) h1o h1.2.1
    · simp only [hsemi, if_false]
      exact hb2 b1 (by rw [h1.1]; exact hlen) h1o h1.2.1

theorem feedAll_preserves (bs : List Char) :
    ∀ b : GCodeBuffer, wfBuf b → wfBuf (feedAll b bs) ∧ (feedAll b bs).oob = b.oob := by
  induction bs with
  | nil => intro b hw; exact ⟨hw, rfl⟩
  | cons c bs ih =>
    intro b hw
    have hstep := put_preserves b c hw
    have := ih (put b c).buf hstep.1
    exact ⟨this.1, by rw [show feedAll b (c :: bs) = feedAll (put b c).buf bs from rfl,
      this.2, hstep.2]⟩

/-- Claim C2: for every sequence of bytes fed one at a time into
GCodeBuffer::Put, the write index is strictly below the capacity at every
store (the ghost out-of-bounds flag never rises), and a byte that takes
the index to the capacity makes Put report the overflow, reset the buffer
to empty (cursor 0, first byte NUL) and return not armed. -/
theorem putNeverWritesPastCapacity (b : GCodeBuffer) (bs : List Char) (hw : wfBuf b) :
    (wfBuf (feedAll b bs) ∧ (feedAll b bs).oob = b.oob) ∧
    (∀ c : Char, ¬(c = '\n' ∨ c = nul) →
      b.gcodePointer + 1 = gcodeLength →
      (!(if c = ';' then true else b.inComment) || b.writingFile) = true →
      (put b c).armed = false ∧ (put b c).buf.overflowReported = true ∧
      (put b c).buf.gcodePointer = 0 ∧ bufGet (put b c).buf.data 0 = nul ∧
      (put b c).buf.oob = b.oob) := by
  refine ⟨feedAll_preserves bs b hw, ?_⟩
  intro c hterm hnext hinc
  obtain ⟨hlen, hptr⟩ := hw
  have hlen' : b.gcodePointer < b.data.length := by omega
  rw [put]
  simp only [hterm, if_false]
  have key : ∀ b2 : GCodeBuffer, b2.data.length = gcodeLength → b2.oob = b.oob →
      b2.gcodePointer = b.gcodePointer →
      (overflowCheck { b2 with gcodePointer := b2.gcodePointer + 1 } false).armed = false ∧
      (overflowCheck { b2 with gcodePointer := b2.gcodePointer + 1 } false).buf.overflowReported = true ∧
      (overflowCheck { b2 with gcodePointer := b2.gcodePointer + 1 } false).buf.gcodePointer = 0 ∧
      bufGet (overflowCheck { b2 with gcodePointer := b2.gcodePointer + 1 } false).buf.data 0 = nul ∧
      (overflowCheck { b2 with gcodePointer := b2.gcodePointer + 1 } false).buf.oob = b.oob := by
    intro b2 hl ho hp
    rw [overflowCheck]
    have hover : gcodeLength ≤ ({ b2 with gcodePointer := b2.gcodePointer + 1 } : GCodeBuffer).gcodePointer := by
      show gcodeLength ≤ b2.gcodePointer + 1
      rw [hp]; omega
    rw [if_pos hover]
    have h0 : (0 : Nat) < b2.data.length := by rw [hl]; exact gcodeLength_pos
    refine ⟨rfl, rfl, rfl, ?_, ?_⟩
    · exact getD_set_same b2.data 0 nul nul h0
    · rw [storeChar_oob _ _ _ (by exact h0)]
      exact ho
  have h1 := storeChar_fields b b.gcodePointer c
  have h1o := storeChar_oob b b.gcodePointer c hlen'
  by_cases hsemi : c = ';'
  · simp only [hsemi, if_true]
    split
    · have hbl : ({ storeChar b b.gcodePointer ';' with inComment := true } : GCodeBuffer).data.length
          = gcodeLength := by
        show (storeChar b b.gcodePointer ';').data.length = gcodeLength
        rw [(storeChar_fields _ _ _).1]
        exact hlen
      have hbo : ({ storeChar b b.gcodePointer ';' with inComment := true } : GCodeBuffer).oob
          = b.oob := by
        show (storeChar b b.gcodePointer ';').oob = b.oob
        exact storeChar_oob b b.gcodePointer ';' hlen'
      have hbp : ({ storeChar b b.gcodePointer ';' with inComment := true } : GCodeBuffer).gcodePointer
          = b.gcodePointer := by
        show (storeChar b b.gcodePointer ';').gcodePointer = b.gcodePointer
        exact (storeChar_fields _ _ _).2.1
      exact key _ hbl hbo hbp
    · rename_i hcond
      exfalso
      apply hcond
      have hwf : b.writingFile = true := by simpa [hsemi] using hinc
      show (!true || (storeChar b b.gcodePointer ';').writingFile) = true
      rw [(storeChar_fields _ _ _).2.2.2.1, hwf]
      decide
  · simp only [hsemi, if_false]
    split
    · exact key (storeChar b b.gcodePointer c) (by rw [h1.1]; exact hlen) h1o h1.2.1
    · rename_i hcond
      exfalso
      apply hcond
      rw [h1.2.2.1, h1.2.2.2.1]
      simpa [hsemi] using hinc

set_option maxRecDepth 8000 in
theorem putNeverWritesPastCapacity_witness :
    (wfBuf emptyBuf ∧
      (feedAll emptyBuf (List.replicate 150 'A')).oob = emptyBuf.oob) ∧
    (wfBuf c2OverflowBuf ∧
      (put c2OverflowBuf 'A').armed = false ∧
      (put c2OverflowBuf 'A').buf.overflowReported = true ∧
      (put c2OverflowBuf 'A').buf.gcodePointer = 0) := by
  have hw : wfBuf emptyBuf := by constructor <;> decide
  have hw2 : wfBuf c2OverflowBuf := by constructor <;> decide
  have h1 := putNeverWritesPastCapacity emptyBuf (List.replicate 150 'A') hw
  have h2 := (putNeverWritesPastCapacity c2OverflowBuf [] hw2).2 'A'
    (by decide) (by decide) (by decide)
  exact ⟨⟨hw, h1.1.2⟩, hw2, h2.1, h2.2.1, h2.2.2.1⟩

/-! ## C1: checksum mismatch synthesizes a resend request -/

theorem cString_append_nul (s rest : List Char) (h : ∀ c ∈ s, ¬c = nul) :
    cString (s ++ nul :: rest) = s := by
  induction s with
  | nil => simp [cString, List.takeWhile]
  | cons a t ih =>
    have ha : ¬a = nul := h a (by simp)
    have iht := ih (fun c hc => h c (List.mem_cons_of_mem _ hc))
    simp only [cString, decide_not] at iht ⊢
    rw [List.cons_append, List.takeWhile_cons]
    simp [ha, iht]

theorem charDigit_ne_nul (k : Nat) (hk : k < 10) : ¬Char.ofNat (48 + k) = nul := by
  interval_cases k <;> decide

theorem natDigitsAux_ne_nul (fuel : Nat) : ∀ (n : Nat) (acc : List Char),
    (∀ c ∈ acc, ¬c = nul) → ∀ c ∈ natDigitsAux n fuel acc, ¬c = nul := by
  induction fuel with
  | zero => intro n acc hacc c hc; exact hacc c hc
  | succ fuel ih =>
    intro n acc hacc c hc
    rw [natDigitsAux] at hc
    by_cases h : n < 10
    · rw [if_pos h] at hc
      rcases List.mem_cons.mp hc with h0 | h0
      · subst h0; exact charDigit_ne_nul n h
      · exact hacc c h0
    · rw [if_neg h] at hc
      refine ih (n / 10) _ ?_ c hc
      intro d hd
      rcases List.mem_cons.mp hd with h0 | h0
      · subst h0; exact charDigit_ne_nul _ (Nat.mod_lt _ (by omega))
      · exact hacc d h0

theorem natDigits_ne_nul (n : Nat) : ∀ c ∈ natDigits n, ¬c = nul :=
  natDigitsAux_ne_nul _ n [] (by simp)

theorem intDecimal_ne_nul (i : Int) : ∀ c ∈ intDecimal i, ¬c = nul := by
  rw [intDecimal]
  by_cases h : i < 0
  · simp only [h, if_pos]
    intro c hc
    rcases List.mem_cons.mp hc with hc | hc
    · subst hc; decide
    · exact natDigits_ne_nul _ c hc
  · simp only [h, if_neg]
    exact natDigits_ne_nul _

theorem resendChars_ne_nul (n : Int) : ∀ c ∈ resendChars n, ¬c = nul := by
  intro c hc
  rw [resendChars] at hc
  rcases List.mem_cons.mp hc with h | hc
  · subst h; decide
  rcases List.mem_cons.mp hc with h | hc
  · subst h; decide
  rcases List.mem_cons.mp hc with h | hc
  · subst h; decide
  rcases List.mem_cons.mp hc with h | hc
  · subst h; decide
  rcases List.mem_cons.mp hc with h | hc
  · subst h; decide
  rcases List.mem_cons.mp hc with h | hc
  · subst h; decide
  exact intDecimal_ne_nul n c hc

theorem parseU_resend (tail : List Char) (f : Nat) :
    parseU ('M' :: '9' :: '9' :: '8' :: ' ' :: 'P' :: tail) 10 1 0 (f + 4) = 998 := by
  show parseU _ 10 1 0 (f + 3 + 1) = 998
  rw [parseU]
  rw [show digitVal 10 (bufGet ('M' :: '9' :: '9' :: '8' :: ' ' :: 'P' :: tail) 1) = some 9 from rfl]
  show parseU _ 10 2 9 (f + 2 + 1) = 998
  rw [parseU]
  rw [show digitVal 10 (bufGet ('M' :: '9' :: '9' :: '8' :: ' ' :: 'P' :: tail) 2) = some 9 from rfl]
  show parseU _ 10 3 99 (f + 1 + 1) = 998
  rw [parseU]
  rw [show digitVal 10 (bufGet ('M' :: '9' :: '9' :: '8' :: ' ' :: 'P' :: tail) 3) = some 8 from rfl]
  show parseU _ 10 4 998 (f + 1) = 998
  rw [parseU]
  rw [show digitVal 10 (bufGet ('M' :: '9' :: '9' :: '8' :: ' ' :: 'P' :: tail) 4) = none from rfl]

theorem strtolAt_resend (tail : List Char) :
    strtolAt ('M' :: '9' :: '9' :: '8' :: ' ' :: 'P' :: tail) 1 = 998 := by
  have hsw : skipWs ('M' :: '9' :: '9' :: '8' :: ' ' :: 'P' :: tail) 1
      (('M' :: '9' :: '9' :: '8' :: ' ' :: 'P' :: tail).length + 1) = 1 := by
    rw [skipWs]
    rw [show isWSpace (bufGet ('M' :: '9' :: '9' :: '8' :: ' ' :: 'P' :: tail) 1) = false from rfl]
    simp
  simp only [strtolAt, hsw]
  rw [if_neg (show ¬(bufGet ('M' :: '9' :: '9' :: '8' :: ' ' :: 'P' :: tail) 1 = '-' ∨
      bufGet ('M' :: '9' :: '9' :: '8' :: ' ' :: 'P' :: tail) 1 = '+') from by
    rw [show bufGet ('M' :: '9' :: '9' :: '8' :: ' ' :: 'P' :: tail) 1 = '9' from rfl]; decide)]
  rw [if_neg (show ¬bufGet ('M' :: '9' :: '9' :: '8' :: ' ' :: 'P' :: tail) 1 = '0' from by
    rw [show bufGet ('M' :: '9' :: '9' :: '8' :: ' ' :: 'P' :: tail) 1 = '9' from rfl]; decide)]
  rw [if_pos (show (digitVal 10 (bufGet ('M' :: '9' :: '9' :: '8' :: ' ' :: 'P' :: tail) 1)).isSome
    = true from rfl)]
  rw [show ('M' :: '9' :: '9' :: '8' :: ' ' :: 'P' :: tail).length + 1 = tail.length + 3 + 4 from by
    simp]
  rw [parseU_resend]
  rw [if_neg (show ¬bufGet ('M' :: '9' :: '9' :: '8' :: ' ' :: 'P' :: tail) 1 = '-' from by
    rw [show bufGet ('M' :: '9' :: '9' :: '8' :: ' ' :: 'P' :: tail) 1 = '9' from rfl]; decide)]
  decide

/-- Claim C1: on a line terminated by a newline or NUL whose buffer holds a
`*` checksum field, Put compares the XOR of the bytes before the `*` with
the integer after `*`; on mismatch the buffer is replaced by exactly the
synthetic resend request `M998 P<n>` with `n` the integer after the `N`
tag, Put returns armed, and the replacement line dispatches through the
M-code handler as M998 (which leaves the interpreter state, and so the
Move Slot, untouched), so no move is queued for the failed line. -/
theorem putChecksumMismatchResend (b : GCodeBuffer) (c : Char)
    (_hw : wfBuf b) (hterm : c = '\n' ∨ c = nul)
    (star n : Nat)
    (hstar : seen (b.data.set b.gcodePointer nul) '*' = some star)
    (hmis : ¬strtolAt (b.data.set b.gcodePointer nul) (star + 1)
      = Int.ofNat (checkSum (b.data.set b.gcodePointer nul)))
    (hn : seen (b.data.set b.gcodePointer nul) 'N' = some n)
    (hfit : (resendChars (strtolAt (b.data.set b.gcodePointer nul) (n + 1))).length < gcodeLength) :
    (put b c).armed = true ∧
    cString (put b c).buf.data =
      resendChars (strtolAt (b.data.set b.gcodePointer nul) (n + 1)) ∧
    seen (put b c).buf.data 'M' = some 0 ∧
    strtolAt (put b c).buf.data 1 = 998 ∧
    ∀ m : GCodes, actOnCode m (put b c).buf.data = some (m, true) := by
  have hsemi : ¬c = ';' := by
    rcases hterm with h | h <;> · subst h; decide
  rw [put]
  simp only [hterm, if_true, hsemi, if_false, bufInit, storeChar, List.set_set]
  simp only [hstar]
  rw [if_pos hmis]
  simp only [hn]
  set msg := resendChars (strtolAt (b.data.set b.gcodePointer nul) (n + 1)) with hmsg
  have htake : msg.take (gcodeLength - 1) = msg := by
    apply List.take_of_length_le
    omega
  simp only [writeCString, htake]
  have hcs : cString (msg ++ nul :: (b.data.set b.gcodePointer nul).drop (msg.length + 1)) = msg :=
    cString_append_nul _ _ (by rw [hmsg]; exact resendChars_ne_nul _)
  have hshape : ∃ rest : List Char,
      msg ++ nul :: (b.data.set b.gcodePointer nul).drop (msg.length + 1) =
      'M' :: '9' :: '9' :: '8' :: ' ' :: 'P' ::
        (intDecimal (strtolAt (b.data.set b.gcodePointer nul) (n + 1)) ++ nul ::
          (b.data.set b.gcodePointer nul).drop (msg.length + 1)) := by
    exact ⟨[], by rw [hmsg, resendChars]; simp⟩
  obtain ⟨-, hsh⟩ := hshape
  have hseenM : seen (msg ++ nul :: (b.data.set b.gcodePointer nul).drop (msg.length + 1)) 'M'
      = some 0 := by
    rw [hsh, seen, seenFrom]
    rw [show bufGet ('M' :: '9' :: '9' :: '8' :: ' ' :: 'P' ::
      (intDecimal (strtolAt (b.data.set b.gcodePointer nul) (n + 1)) ++ nul ::
        (b.data.set b.gcodePointer nul).drop (msg.length + 1))) 0 = 'M' from rfl]
    rw [if_neg (by decide), if_pos rfl]
  have h998 : strtolAt (msg ++ nul :: (b.data.set b.gcodePointer nul).drop (msg.length + 1)) 1
      = 998 := by
    rw [hsh]
    exact strtolAt_resend _
  refine ⟨by trivial, hcs, hseenM, h998, ?_⟩
  intro m
  rw [actOnCode, if_pos (by rw [hseenM]; rfl)]
  rw [handleMcode]
  simp only [hseenM]
  rw [show (0 : Nat) + 1 = 1 from rfl, h998]
  norm_num

set_option maxRecDepth 8000 in
theorem putChecksumMismatchResend_witness :
    (put c1Buf '\n').armed = true ∧
    cString (put c1Buf '\n').buf.data = resendChars 10 ∧
    (∀ m : GCodes, actOnCode m (put c1Buf '\n').buf.data = some (m, true)) := by
  have h := putChecksumMismatchResend c1Buf '\n' (by constructor <;> decide) (Or.inl rfl)
    9 0 (by decide) (by decide) (by decide) (by decide)
  refine ⟨h.1, ?_, h.2.2.2.2⟩
  rw [h.2.1]
  rw [show strtolAt (c1Buf.data.set c1Buf.gcodePointer nul) (0 + 1) = 10 from by decide]


/-! ## C3: push followed by pop -/

theorem push_fields (s : GCodes) (hsp : s.stackPointer < STACK)
    (hav : s.moveAvailable = false) (hid : s.plannerIdle = true) :
    (push s).2 = true ∧
    (push s).1.stackPointer = s.stackPointer + 1 ∧
    (push s).1.moveBuffer = s.plannerPos ∧
    (push s).1.drivesRelativeStack = s.drivesRelativeStack.set s.stackPointer s.drivesRelative ∧
    (push s).1.axesRelativeStack = s.axesRelativeStack.set s.stackPointer s.axesRelative ∧
    (push s).1.feedrateStack = s.feedrateStack.set s.stackPointer (getQ s.plannerPos DRIVES) ∧
    (push s).1.fileStack = s.fileStack.set s.stackPointer s.fileBeingPrinted ∧
    (push s).1.drivesRelative = s.drivesRelative ∧
    (push s).1.axesRelative = s.axesRelative ∧
    (push s).1.distanceScale = s.distanceScale ∧
    (push s).1.lastPos = s.lastPos ∧
    (push s).1.moveAvailable = s.moveAvailable ∧
    (push s).1.checkEndStops = s.checkEndStops ∧
    (push s).1.axisIsHomed = s.axisIsHomed ∧
    (push s).1.speedFactor = s.speedFactor ∧
    (push s).1.speedFactorChange = s.speedFactorChange ∧
    (push s).1.extrusionFactors = s.extrusionFactors ∧
    (push s).1.fileBeingPrinted = s.fileBeingPrinted ∧
    (push s).1.plannerIdle = s.plannerIdle ∧
    (push s).1.plannerPos = s.plannerPos := by
  have hall : allMovesAreFinishedAndMoveBufferIsLoaded s
      = some { s with moveBuffer := s.plannerPos } := by
    rw [allMovesAreFinishedAndMoveBufferIsLoaded, hav, hid]
    simp
  rw [push, if_neg (by omega), hall]
  and_intros <;> rfl

theorem pop_fields (u : GCodes) (h0 : ¬u.stackPointer = 0)
    (hav : u.moveAvailable = false) (hid : u.plannerIdle = true) :
    (pop u).2 = true ∧
    (pop u).1.stackPointer = u.stackPointer - 1 ∧
    (pop u).1.drivesRelative = u.drivesRelativeStack.getD (u.stackPointer - 1) false ∧
    (pop u).1.axesRelative = u.axesRelativeStack.getD (u.stackPointer - 1) false ∧
    (pop u).1.fileBeingPrinted = u.fileStack.getD (u.stackPointer - 1) none ∧
    (pop u).1.lastPos = (List.range (DRIVES - AXES)).map (fun i => getQ u.plannerPos (AXES + i)) ∧
    (pop u).1.moveBuffer = u.plannerPos.set DRIVES (u.feedrateStack.getD (u.stackPointer - 1) 0) ∧
    (pop u).1.checkEndStops = false ∧
    (pop u).1.moveAvailable = true ∧
    (pop u).1.distanceScale = u.distanceScale ∧
    (pop u).1.axisIsHomed = u.axisIsHomed ∧
    (pop u).1.speedFactor = u.speedFactor ∧
    (pop u).1.speedFactorChange = u.speedFactorChange ∧
    (pop u).1.extrusionFactors = u.extrusionFactors := by
  have hall : allMovesAreFinishedAndMoveBufferIsLoaded u
      = some { u with moveBuffer := u.plannerPos } := by
    rw [allMovesAreFinishedAndMoveBufferIsLoaded, hav, hid]
    simp
  rw [pop, if_neg h0, hall]
  and_intros <;> rfl

/-- Counterexample to claim C3 as stated: from a state with no pending move
and accumulator 5, a completing M120 push immediately followed by a
completing M121 pop flips the pending-move flag from false to true (the
null move the pop installs) and overwrites the extruder accumulator with
the planner extruder position, so those are not bit-identical. -/
theorem pushPopCounterexample :
    (push c3Start).2 = true ∧ (pop (push c3Start).1).2 = true ∧
    c3Start.moveAvailable = false ∧ (pop (push c3Start).1).1.moveAvailable = true ∧
    c3Start.lastPos.getD 0 0 = 5 ∧ (pop (push c3Start).1).1.lastPos.getD 0 0 = 0 ∧
    c3Start.checkEndStops = (pop (push c3Start).1).1.checkEndStops := by
  decide

/-- Claim C3 (amended): for a state in which M120 completes and M121
immediately completes afterwards, the relative modes, distance scale,
homed flags, speed and extrusion factors, stack pointer and file position
are restored bit-identically; the move record carries the planner
position and the captured feedrate (both unchanged, the planner having
seen no intervening activity); the extruder accumulators are overwritten
with the planner extruder user position (identical only when they already
matched it); the endstop-check flag is cleared and the pending-move flag
is raised for the null move that reapplies the feedrate. -/
theorem pushPopRestoresCoordinateModel (s : GCodes) (hwf : wfM s)
    (hsp : s.stackPointer < STACK) (hav : s.moveAvailable = false)
    (hid : s.plannerIdle = true) :
    (push s).2 = true ∧ (pop (push s).1).2 = true ∧
    (pop (push s).1).1.drivesRelative = s.drivesRelative ∧
    (pop (push s).1).1.axesRelative = s.axesRelative ∧
    (pop (push s).1).1.distanceScale = s.distanceScale ∧
    (pop (push s).1).1.axisIsHomed = s.axisIsHomed ∧
    (pop (push s).1).1.speedFactor = s.speedFactor ∧
    (pop (push s).1).1.speedFactorChange = s.speedFactorChange ∧
    (pop (push s).1).1.extrusionFactors = s.extrusionFactors ∧
    (pop (push s).1).1.stackPointer = s.stackPointer ∧
    (pop (push s).1).1.fileBeingPrinted = s.fileBeingPrinted ∧
    (∀ a, a < AXES → getQ (pop (push s).1).1.moveBuffer a = getQ s.plannerPos a) ∧
    getQ (pop (push s).1).1.moveBuffer DRIVES = getQ s.plannerPos DRIVES ∧
    (∀ e, e < DRIVES - AXES →
      (pop (push s).1).1.lastPos.getD e 0 = getQ s.plannerPos (AXES + e)) ∧
    (pop (push s).1).1.checkEndStops = false ∧
    (pop (push s).1).1.moveAvailable = true := by
  obtain ⟨hmb, hlp, hah, hef, hdrs, hars, hfrs, hfs, hpp⟩ := hwf
  obtain ⟨hp1, hpsp, hpmb, hpdrs, hpars, hpfrs, hpfs, hpdr, hpar, hpds, hplp, hpma, hpce,
    hpah, hpsf, hpsfc, hpef, hpfbp, hppi, hppp⟩ := push_fields s hsp hav hid
  obtain ⟨hq1, hqsp, hqdr, hqar, hqfbp, hqlp, hqmb, hqce, hqma, hqds, hqah, hqsf, hqsfc, hqef⟩ :=
    pop_fields (push s).1 (by rw [hpsp]; omega) (by rw [hpma]; exact hav)
      (by rw [hppi]; exact hid)
  have hsp1 : (push s).1.stackPointer - 1 = s.stackPointer := by rw [hpsp]; omega
  refine ⟨hp1, hq1, ?_, ?_, ?_, ?_, ?_, ?_, ?_, ?_, ?_, ?_, ?_, ?_, ?_, ?_⟩
  · rw [hqdr, hsp1, hpdrs]
    exact getD_set_same _ _ _ _ (by rw [hdrs]; exact hsp)
  · rw [hqar, hsp1, hpars]
    exact getD_set_same _ _ _ _ (by rw [hars]; exact hsp)
  · rw [hqds, hpds]
  · rw [hqah, hpah]
  · rw [hqsf, hpsf]
  · rw [hqsfc, hpsfc]
  · rw [hqef, hpef]
  · rw [hqsp, hsp1]
  · rw [hqfbp, hsp1, hpfs]
    exact getD_set_same _ _ _ _ (by rw [hfs]; exact hsp)
  · intro a ha
    rw [getQ, hqmb, hppp]
    rw [getD_set_other _ _ _ _ _ (by rw [DRIVES, AXES] at *; omega)]
    rfl
  · rw [getQ, hqmb, hppp]
    rw [getD_set_same _ _ _ _ (by rw [hpp]; rw [DRIVES]; omega), hsp1, hpfrs]
    exact getD_set_same _ _ _ _ (by rw [hfrs]; exact hsp)
  · intro e he
    rw [hqlp, hppp]
    rw [show (DRIVES - AXES) = 1 from rfl] at he ⊢
    interval_cases e
    rfl
  · exact hqce
  · exact hqma

set_option maxRecDepth 2000 in
theorem pushPopRestoresCoordinateModel_witness :
    wfM c3Start ∧ c3Start.stackPointer < STACK ∧
    (pop (push c3Start).1).1.drivesRelative = c3Start.drivesRelative ∧
    (pop (push c3Start).1).1.moveAvailable = true := by
  have hwf : wfM c3Start := by
    refine ⟨?_, ?_, ?_, ?_, ?_, ?_, ?_, ?_, ?_⟩ <;> decide
  obtain ⟨-, -, h3, -, -, -, -, -, -, -, -, -, -, -, -, h16⟩ :=
    pushPopRestoresCoordinateModel c3Start hwf (by decide) (by decide) (by decide)
  exact ⟨hwf, by decide, h3, h16⟩

/-! ## C10: ReadMove consumes the Move Slot atomically -/

/-- Claim C10: when no move is pending ReadMove returns false leaving the
state (and the caller outputs, modelled by the `none` result) untouched;
when a move is pending it hands over all DRIVES+1 values and the
endstop-check flag and clears both the pending flag and the stored
endstop-check flag in the same call, so an endstop-check request never
carries over. -/
theorem readMoveAtomic (s : GCodes) :
    (s.moveAvailable = false → readMove s = (none, s)) ∧
    (s.moveAvailable = true →
      (readMove s).1 = some (s.moveBuffer, s.checkEndStops) ∧
      (readMove s).2 = { s with moveAvailable := false, checkEndStops := false } ∧
      ((readMove s).2).checkEndStops = false ∧
      ((readMove s).2).moveAvailable = false ∧
      (readMove (readMove s).2).1 = none) := by
  constructor
  · intro h
    rw [readMove, if_pos (by rw [h]; decide)]
  · intro h
    rw [readMove, if_neg (by rw [h]; decide)]
    refine ⟨rfl, rfl, rfl, rfl, ?_⟩
    rw [readMove]
    simp

set_option maxRecDepth 2000 in
theorem readMoveAtomic_witness :
    ({ c3Start with moveAvailable := true, checkEndStops := true } : GCodes).moveAvailable = true ∧
    (readMove { c3Start with moveAvailable := true, checkEndStops := true }).1
      = some (c3Start.moveBuffer, true) ∧
    ((readMove { c3Start with moveAvailable := true, checkEndStops := true }).2).checkEndStops
      = false := by
  have h := (readMoveAtomic { c3Start with moveAvailable := true, checkEndStops := true }).2 rfl
  exact ⟨rfl, h.1, h.2.2.1⟩



/-! ## Extrusion and axis sections of LoadMoveBufferFromGCode -/

theorem loadExtrusion_single_g92 (s : GCodes) (g : List Char) (v : ℚ) (ei : Nat)
    (htool : s.currentToolDrives = some (0 :: []))
    (hE : seen g 'E' = some ei)
    (harr : getFloatArray g ei 1 = (v :: [], 1)) :
    loadExtrusion s g true = some
      { s with moveBuffer := (s.moveBuffer.set (AXES + 0) 0).set (0 + AXES) 0,
               lastPos := s.lastPos.set 0 (v * s.distanceScale) } := by
  rw [loadExtrusion, hE, htool]
  simp only [List.length_cons, List.length_nil, Nat.zero_add, harr]
  rw [if_neg (by decide)]
  rfl

theorem loadExtrusion_single_rel (s : GCodes) (g : List Char) (v : ℚ) (ei : Nat)
    (htool : s.currentToolDrives = some (0 :: []))
    (hE : seen g 'E' = some ei)
    (harr : getFloatArray g ei 1 = (v :: [], 1))
    (hrel : s.drivesRelative = true) :
    loadExtrusion s g false = some
      { s with moveBuffer := (s.moveBuffer.set (AXES + 0) 0).set (0 + AXES)
                 (v * s.distanceScale * getQ s.extrusionFactors 0),
               lastPos := s.lastPos.set 0 (getQ s.lastPos 0 + v * s.distanceScale) } := by
  rw [loadExtrusion, hE, htool]
  simp only [List.length_cons, List.length_nil, Nat.zero_add, harr]
  rw [if_neg (by decide)]
  rw [show List.range 1 = 0 :: [] from rfl]
  simp only [List.foldl_cons, List.foldl_nil, Bool.false_eq_true, if_false, hrel, if_true]
  rfl

theorem loadExtrusion_none (s : GCodes) (g : List Char) (doingG92 : Bool)
    (hE : seen g 'E' = none) :
    loadExtrusion s g doingG92 = some s := by
  rw [loadExtrusion, hE]


theorem loadFeedrate_frame (s : GCodes) (g : List Char) :
    (loadFeedrate s g).lastPos = s.lastPos ∧
    (loadFeedrate s g).axisIsHomed = s.axisIsHomed ∧
    (loadFeedrate s g).moveAvailable = s.moveAvailable ∧
    (loadFeedrate s g).checkEndStops = s.checkEndStops ∧
    (loadFeedrate s g).waitingForMoveToComplete = s.waitingForMoveToComplete ∧
    (loadFeedrate s g).instantDv = s.instantDv ∧
    (∀ i, ¬i = DRIVES → getQ (loadFeedrate s g).moveBuffer i = getQ s.moveBuffer i) := by
  rw [loadFeedrate]
  rcases hF : seen g 'F' with _ | i
  · exact ⟨rfl, rfl, rfl, rfl, rfl, rfl, fun _ _ => rfl⟩
  · refine ⟨rfl, rfl, rfl, rfl, rfl, rfl, ?_⟩
    intro j hj
    exact getD_set_other _ _ _ _ _ (fun h => hj h.symm)

theorem loadOneAxis_frame (g : List Char) (ap : Bool) (s : GCodes) (axis : Nat) :
    (loadOneAxis g true ap s axis).lastPos = s.lastPos ∧
    (loadOneAxis g true ap s axis).moveAvailable = s.moveAvailable ∧
    (loadOneAxis g true ap s axis).distanceScale = s.distanceScale ∧
    (loadOneAxis g true ap s axis).instantDv = s.instantDv ∧
    (loadOneAxis g true ap s axis).moveBuffer.length = s.moveBuffer.length ∧
    (loadOneAxis g true ap s axis).axisIsHomed.length = s.axisIsHomed.length ∧
    (∀ i, ¬axis = i → getQ (loadOneAxis g true ap s axis).moveBuffer i = getQ s.moveBuffer i) ∧
    (∀ i, ¬axis = i →
      (loadOneAxis g true ap s axis).axisIsHomed.getD i false = s.axisIsHomed.getD i false) := by
  rw [loadOneAxis]
  rcases h : seen g (gCodeLetters.getD axis 'X') with _ | ia
  · exact ⟨rfl, rfl, rfl, rfl, rfl, rfl, fun _ _ => rfl, fun _ _ => rfl⟩
  · simp only [eq_self_iff_true, if_true]
    refine ⟨by trivial, by trivial, by trivial, by trivial, by simp, by simp, ?_, ?_⟩
    · intro i hi
      exact getD_set_other _ _ _ _ _ hi
    · intro i hi
      exact getD_set_other _ _ _ _ _ hi

theorem loadOneAxis_write (g : List Char) (ap : Bool) (s : GCodes) (axis ia : Nat)
    (h : seen g (gCodeLetters.getD axis 'X') = some ia)
    (hmb : axis < s.moveBuffer.length) (hah : axis < s.axisIsHomed.length) :
    getQ (loadOneAxis g true ap s axis).moveBuffer axis = strtodAt g (ia + 1) * s.distanceScale ∧
    (loadOneAxis g true ap s axis).axisIsHomed.getD axis false = true := by
  rw [loadOneAxis]
  simp only [h, eq_self_iff_true, not_true, and_false, false_and, if_false, if_true]
  constructor
  · exact getD_set_same _ _ _ _ hmb
  · exact getD_set_same _ _ _ _ (by simpa using hah)

theorem loadAxes_g92_spec (s : GCodes) (g : List Char) (ap : Bool)
    (hmb : s.moveBuffer.length = DRIVES + 1) (hah : s.axisIsHomed.length = AXES) :
    (loadAxes s g true ap).lastPos = s.lastPos ∧
    (loadAxes s g true ap).moveAvailable = s.moveAvailable ∧
    (loadAxes s g true ap).distanceScale = s.distanceScale ∧
    (loadAxes s g true ap).instantDv = s.instantDv ∧
    (loadAxes s g true ap).moveBuffer.length = s.moveBuffer.length ∧
    (∀ i, AXES ≤ i → getQ (loadAxes s g true ap).moveBuffer i = getQ s.moveBuffer i) ∧
    (∀ ia, seen g (gCodeLetters.getD 0 'X') = some ia →
      getQ (loadAxes s g true ap).moveBuffer 0 = strtodAt g (ia + 1) * s.distanceScale ∧
      (loadAxes s g true ap).axisIsHomed.getD 0 false = true) ∧
    (∀ ia, seen g (gCodeLetters.getD 1 'X') = some ia →
      getQ (loadAxes s g true ap).moveBuffer 1 = strtodAt g (ia + 1) * s.distanceScale ∧
      (loadAxes s g true ap).axisIsHomed.getD 1 false = true) ∧
    (∀ ia, seen g (gCodeLetters.getD 2 'X') = some ia →
      getQ (loadAxes s g true ap).moveBuffer 2 = strtodAt g (ia + 1) * s.distanceScale ∧
      (loadAxes s g true ap).axisIsHomed.getD 2 false = true) := by
  obtain ⟨f0lp, f0ma, f0ds, f0dv, f0ml, f0al, f0mb, f0ah⟩ := loadOneAxis_frame g ap s 0
  obtain ⟨f1lp, f1ma, f1ds, f1dv, f1ml, f1al, f1mb, f1ah⟩ :=
    loadOneAxis_frame g ap (loadOneAxis g true ap s 0) 1
  obtain ⟨f2lp, f2ma, f2ds, f2dv, f2ml, f2al, f2mb, f2ah⟩ :=
    loadOneAxis_frame g ap (loadOneAxis g true ap (loadOneAxis g true ap s 0) 1) 2
  have hfold : loadAxes s g true ap
      = loadOneAxis g true ap (loadOneAxis g true ap (loadOneAxis g true ap s 0) 1) 2 := rfl
  rw [hfold]
  refine ⟨by rw [f2lp, f1lp, f0lp], by rw [f2ma, f1ma, f0ma], by rw [f2ds, f1ds, f0ds],
    by rw [f2dv, f1dv, f0dv], by rw [f2ml, f1ml, f0ml], ?_, ?_, ?_, ?_⟩
  · intro i hi
    have hi3 : 3 ≤ i := by rw [AXES] at hi; exact hi
    rw [f2mb i (by omega), f1mb i (by omega), f0mb i (by omega)]
  · intro ia hseen
    have hw := loadOneAxis_write g ap s 0 ia hseen (by rw [hmb]; omega)
      (by rw [hah, AXES]; omega)
    constructor
    · rw [f2mb 0 (by omega), f1mb 0 (by omega), hw.1]
    · rw [f2ah 0 (by omega), f1ah 0 (by omega), hw.2]
  · intro ia hseen
    have hw := loadOneAxis_write g ap (loadOneAxis g true ap s 0) 1 ia hseen
      (by rw [f0ml, hmb, DRIVES]; omega) (by rw [f0al, hah, AXES]; omega)
    constructor
    · rw [f2mb 1 (by omega), hw.1, f0ds]
    · rw [f2ah 1 (by omega), hw.2]
  · intro ia hseen
    have hw := loadOneAxis_write g ap
      (loadOneAxis g true ap (loadOneAxis g true ap s 0) 1) 2 ia hseen
      (by rw [f1ml, f0ml, hmb, DRIVES]; omega) (by rw [f1al, f0al, hah, AXES]; omega)
    constructor
    · rw [hw.1, f1ds, f0ds]
    · exact hw.2



/-! ## C6: G92 semantics -/

/-- Counterexample to claim C6 as stated: in inch mode (distanceScale 25.4)
the command `G92 E5` resets the extruder accumulator to 127 (the supplied
value scaled by distanceScale), not to the supplied value 5. -/
theorem g92Counterexample :
    c6Run.lastPos.getD 0 0 = 127 ∧ ¬c6Run.lastPos.getD 0 0 = 5 := by
  with_unfolding_all decide

/-- Claim C6 (amended): for every completing G92, each axis letter present
records the supplied value scaled by distanceScale without clamping and
marks that axis homed; each listed extruder resets its accumulator to the
supplied value scaled by distanceScale (equal to the supplied value in mm
mode) while the move-record extruder slot is set to 0.0, and no move is
queued. -/
theorem g92RecordsPositionAndResetsAccumulator (s : GCodes) (g : List Char) (v : ℚ) (ei : Nat)
    (hlp : s.lastPos.length = DRIVES - AXES)
    (hah : s.axisIsHomed.length = AXES)
    (hpp : s.plannerPos.length = DRIVES + 1)
    (hav : s.moveAvailable = false) (hid : s.plannerIdle = true)
    (htool : s.currentToolDrives = some (0 :: []))
    (hE : seen g 'E' = some ei)
    (harr : getFloatArray g ei 1 = (v :: [], 1)) :
    (setPositions s g).2 = true ∧
    (setPositions s g).1.lastPos.getD 0 0 = v * s.distanceScale ∧
    getQ (setPositions s g).1.moveBuffer (0 + AXES) = 0 ∧
    (setPositions s g).1.moveAvailable = false ∧
    (∀ ia, seen g 'X' = some ia →
      getQ (setPositions s g).1.moveBuffer 0 = strtodAt g (ia + 1) * s.distanceScale ∧
      (setPositions s g).1.axisIsHomed.getD 0 false = true) ∧
    (∀ ia, seen g 'Y' = some ia →
      getQ (setPositions s g).1.moveBuffer 1 = strtodAt g (ia + 1) * s.distanceScale ∧
      (setPositions s g).1.axisIsHomed.getD 1 false = true) ∧
    (∀ ia, seen g 'Z' = some ia →
      getQ (setPositions s g).1.moveBuffer 2 = strtodAt g (ia + 1) * s.distanceScale ∧
      (setPositions s g).1.axisIsHomed.getD 2 false = true) := by
  have hall : allMovesAreFinishedAndMoveBufferIsLoaded s
      = some { s with moveBuffer := s.plannerPos } := by
    rw [allMovesAreFinishedAndMoveBufferIsLoaded, hav, hid]
    simp
  suffices key : ∀ t : GCodes, t.lastPos.length = DRIVES - AXES →
      t.axisIsHomed.length = AXES → t.moveBuffer.length = DRIVES + 1 →
      t.moveAvailable = false → t.currentToolDrives = some (0 :: []) →
      ∀ w : GCodes × Bool,
      w = (let lr := loadMoveBufferFromGCode t g true false;
           if lr.2 then ({ lr.1 with plannerPos := lr.1.moveBuffer.take DRIVES ++ [lr.1.instantDv] }, true)
           else (lr.1, true)) →
      w.2 = true ∧
      w.1.lastPos.getD 0 0 = v * t.distanceScale ∧
      getQ w.1.moveBuffer (0 + AXES) = 0 ∧
      w.1.moveAvailable = false ∧
      (∀ ia, seen g 'X' = some ia →
        getQ w.1.moveBuffer 0 = strtodAt g (ia + 1) * t.distanceScale ∧
        w.1.axisIsHomed.getD 0 false = true) ∧
      (∀ ia, seen g 'Y' = some ia →
        getQ w.1.moveBuffer 1 = strtodAt g (ia + 1) * t.distanceScale ∧
        w.1.axisIsHomed.getD 1 false = true) ∧
      (∀ ia, seen g 'Z' = some ia →
        getQ w.1.moveBuffer 2 = strtodAt g (ia + 1) * t.distanceScale ∧
        w.1.axisIsHomed.getD 2 false = true) by
    have h := key { s with moveBuffer := s.plannerPos } hlp hah hpp hav htool
      (setPositions s g) (by rw [setPositions]; simp only [hall])
    exact h
  intro t htlp htah htmb htma httool w hw
  have hl := loadExtrusion_single_g92 t g v ei httool hE harr
  rw [loadMoveBufferFromGCode] at hw
  simp only [hl] at hw
  subst hw
  obtain ⟨alp, ama, ads, adv, aml, amb, hax0, hax1, hax2⟩ := loadAxes_g92_spec
    { t with moveBuffer := (t.moveBuffer.set (AXES + 0) 0).set (0 + AXES) 0,
             lastPos := t.lastPos.set 0 (v * t.distanceScale) } g false
    (by simp only [List.length_set]; exact htmb) htah
  obtain ⟨flp, fah, fma, fce, fw, fdv, fmb⟩ := loadFeedrate_frame
    (loadAxes { t with moveBuffer := (t.moveBuffer.set (AXES + 0) 0).set (0 + AXES) 0,
                       lastPos := t.lastPos.set 0 (v * t.distanceScale) } g true false) g
  refine ⟨rfl, ?_, ?_, ?_, ?_, ?_, ?_⟩
  · show (loadFeedrate _ g).lastPos.getD 0 0 = v * t.distanceScale
    rw [flp, alp]
    exact getD_set_same _ _ _ _ (by rw [htlp]; decide)
  · show getQ (loadFeedrate _ g).moveBuffer (0 + AXES) = 0
    rw [fmb (0 + AXES) (by decide), amb (0 + AXES) (by decide), getQ]
    exact getD_set_same _ _ _ _ (by simp only [List.length_set]; rw [htmb]; decide)
  · show (loadFeedrate _ g).moveAvailable = false
    rw [fma, ama]
    exact htma
  · intro ia hseen
    have h0 := hax0 ia hseen
    refine ⟨?_, ?_⟩
    · show getQ (loadFeedrate _ g).moveBuffer 0 = _
      rw [fmb 0 (by decide)]
      exact h0.1
    · show (loadFeedrate _ g).axisIsHomed.getD 0 false = true
      rw [fah]
      exact h0.2
  · intro ia hseen
    have h1 := hax1 ia hseen
    refine ⟨?_, ?_⟩
    · show getQ (loadFeedrate _ g).moveBuffer 1 = _
      rw [fmb 1 (by decide)]
      exact h1.1
    · show (loadFeedrate _ g).axisIsHomed.getD 1 false = true
      rw [fah]
      exact h1.2
  · intro ia hseen
    have h2 := hax2 ia hseen
    refine ⟨?_, ?_⟩
    · show getQ (loadFeedrate _ g).moveBuffer 2 = _
      rw [fmb 2 (by decide)]
      exact h2.1
    · show (loadFeedrate _ g).axisIsHomed.getD 2 false = true
      rw [fah]
      exact h2.2


set_option maxRecDepth 8000 in
theorem g92RecordsPositionAndResetsAccumulator_witness :
    (setPositions c6Machine ("G92 E5".data)).2 = true ∧
    (setPositions c6Machine ("G92 E5".data)).1.lastPos.getD 0 0 = 5 * c6Machine.distanceScale ∧
    getQ (setPositions c6Machine ("G92 E5".data)).1.moveBuffer (0 + AXES) = 0 ∧
    (setPositions c6Machine ("G92 E5".data)).1.moveAvailable = false := by
  have h := g92RecordsPositionAndResetsAccumulator c6Machine ("G92 E5".data) 5 4
    (by decide) (by decide) (by decide) (by decide) (by decide) (by decide)
    (by decide) (by with_unfolding_all decide)
  exact ⟨h.1, h.2.1, h.2.2.1, h.2.2.2.1⟩

/-! ## C9: M83 resets the extruder accumulators exactly as M82 does -/

theorem loadOneAxis_frameAny (g : List Char) (dg ap : Bool) (s : GCodes) (axis : Nat) :
    (loadOneAxis g dg ap s axis).lastPos = s.lastPos ∧
    (loadOneAxis g dg ap s axis).moveAvailable = s.moveAvailable ∧
    (loadOneAxis g dg ap s axis).distanceScale = s.distanceScale ∧
    (loadOneAxis g dg ap s axis).moveBuffer.length = s.moveBuffer.length ∧
    (loadOneAxis g dg ap s axis).checkEndStops = s.checkEndStops ∧
    (loadOneAxis g dg ap s axis).waitingForMoveToComplete = s.waitingForMoveToComplete ∧
    (∀ i, ¬axis = i → getQ (loadOneAxis g dg ap s axis).moveBuffer i = getQ s.moveBuffer i) := by
  rw [loadOneAxis]
  rcases h : seen g (gCodeLetters.getD axis 'X') with _ | ia
  · simp [h]
  · simp only [h]
    split
    · refine ⟨by trivial, by trivial, by trivial, by simp, by trivial, by trivial, ?_⟩
      intro i hi
      exact getD_set_other _ _ _ _ _ hi
    · refine ⟨by trivial, by trivial, by trivial, by simp, by trivial, by trivial, ?_⟩
      intro i hi
      exact getD_set_other _ _ _ _ _ hi

theorem loadAxes_frameAny (s : GCodes) (g : List Char) (dg ap : Bool) :
    (loadAxes s g dg ap).lastPos = s.lastPos ∧
    (loadAxes s g dg ap).moveAvailable = s.moveAvailable ∧
    (loadAxes s g dg ap).distanceScale = s.distanceScale ∧
    (loadAxes s g dg ap).moveBuffer.length = s.moveBuffer.length ∧
    (loadAxes s g dg ap).checkEndStops = s.checkEndStops ∧
    (loadAxes s g dg ap).waitingForMoveToComplete = s.waitingForMoveToComplete ∧
    (∀ i, AXES ≤ i → getQ (loadAxes s g dg ap).moveBuffer i = getQ s.moveBuffer i) := by
  obtain ⟨f0lp, f0ma, f0ds, f0ml, f0ce, f0w, f0mb⟩ := loadOneAxis_frameAny g dg ap s 0
  obtain ⟨f1lp, f1ma, f1ds, f1ml, f1ce, f1w, f1mb⟩ :=
    loadOneAxis_frameAny g dg ap (loadOneAxis g dg ap s 0) 1
  obtain ⟨f2lp, f2ma, f2ds, f2ml, f2ce, f2w, f2mb⟩ :=
    loadOneAxis_frameAny g dg ap (loadOneAxis g dg ap (loadOneAxis g dg ap s 0) 1) 2
  have hfold : loadAxes s g dg ap
      = loadOneAxis g dg ap (loadOneAxis g dg ap (loadOneAxis g dg ap s 0) 1) 2 := rfl
  rw [hfold]
  refine ⟨by rw [f2lp, f1lp, f0lp], by rw [f2ma, f1ma, f0ma], by rw [f2ds, f1ds, f0ds],
    by rw [f2ml, f1ml, f0ml], by rw [f2ce, f1ce, f0ce], by rw [f2w, f1w, f0w], ?_⟩
  intro i hi
  have hi3 : 3 ≤ i := by rw [AXES] at hi; exact hi
  rw [f2mb i (by omega), f1mb i (by omega), f0mb i (by omega)]

/-- Claim C9: M83 resets every extruder accumulator to 0.0 exactly as M82
does (the two handlers produce identical accumulators); consequently the
first E move issued in relative mode (mm units) extrudes its literal
argument times the extrusion factor, independently of any accumulator
history (the published value does not mention the accumulators at all). -/
theorem m83ResetsAccumulatorsLikeM82 (s : GCodes) (g gm82 : List Char) (i i82 : Nat)
    (hlen : s.lastPos.length = DRIVES - AXES)
    (hM : seen g 'M' = some i) (hcode : strtolAt g (i + 1) = 83)
    (hM82 : seen gm82 'M' = some i82) (hcode82 : strtolAt gm82 (i82 + 1) = 82) :
    (∃ t u : GCodes, handleMcode s g = some (t, true) ∧ handleMcode s gm82 = some (u, true) ∧
      t.drivesRelative = true ∧ u.drivesRelative = false ∧ t.lastPos = u.lastPos ∧
      (∀ k, k < DRIVES - AXES → t.lastPos.getD k 0 = 0)) ∧
    (∀ (w : GCodes) (g2 : List Char) (v : ℚ) (ei : Nat),
      w.drivesRelative = true → w.distanceScale = 1 →
      w.moveAvailable = false → w.currentToolDrives = some (0 :: []) →
      w.plannerPos.length = DRIVES + 1 →
      seen g2 'E' = some ei → getFloatArray g2 ei 1 = (v :: [], 1) →
      seen g2 'S' = none →
      getQ (setUpMove w g2).1.moveBuffer (0 + AXES) = v * getQ w.extrusionFactors 0 ∧
      (setUpMove w g2).1.moveAvailable = true) := by
  constructor
  · have ht : handleMcode s g = some
        ({ s with lastPos := (List.range (DRIVES - AXES)).foldl (fun l k => l.set k 0) s.lastPos
                  drivesRelative := true }, true) := by
      rw [handleMcode]
      simp only [hM]
      rw [hcode]
      norm_num
    have hu : handleMcode s gm82 = some
        ({ s with lastPos := (List.range (DRIVES - AXES)).foldl (fun l k => l.set k 0) s.lastPos
                  drivesRelative := false }, true) := by
      rw [handleMcode]
      simp only [hM82]
      rw [hcode82]
      norm_num
    refine ⟨_, _, ht, hu, rfl, rfl, rfl, ?_⟩
    intro k hk
    rw [show (DRIVES - AXES) = 1 from rfl] at hk hlen
    interval_cases k
    show ((List.range (DRIVES - AXES)).foldl (fun l k => l.set k 0) s.lastPos).getD 0 0 = 0
    rw [show List.range (DRIVES - AXES) = 0 :: [] from rfl, List.foldl_cons, List.foldl_nil]
    exact getD_set_same _ _ _ _ (by omega)
  · intro w g2 v ei hrel hds hma htool hppl hE2 harr2 hS
    rw [setUpMove]
    simp only [hma, Bool.false_eq_true, if_false, hS]
    have hl := loadExtrusion_single_rel
      { w with
          moveBuffer := (w.plannerPos.set DRIVES (getQ w.plannerPos DRIVES * w.speedFactorChange)),
          speedFactorChange := 1, checkEndStops := false, moveAvailable := false } g2 v ei htool
      hE2 harr2 hrel
    rw [loadMoveBufferFromGCode]
    simp only [hl]
    obtain ⟨alp, ama, ads, aml, ace, aw, amb⟩ := loadAxes_frameAny
      ({ w with
          moveBuffer := ((w.plannerPos.set DRIVES (getQ w.plannerPos DRIVES * w.speedFactorChange)).set (AXES + 0) 0).set (0 + AXES)
            (v * w.distanceScale * getQ w.extrusionFactors 0),
          speedFactorChange := 1, checkEndStops := false, moveAvailable := false,
          lastPos := w.lastPos.set 0 (getQ w.lastPos 0 + v * w.distanceScale) } : GCodes) g2 false
      (!false && w.limitAxes)
    obtain ⟨flp, fah, fma, fce, fw, fdv, fmb⟩ := loadFeedrate_frame
      (loadAxes
        ({ w with
            moveBuffer := ((w.plannerPos.set DRIVES (getQ w.plannerPos DRIVES * w.speedFactorChange)).set (AXES + 0) 0).set (0 + AXES)
              (v * w.distanceScale * getQ w.extrusionFactors 0),
            speedFactorChange := 1, checkEndStops := false, moveAvailable := false,
            lastPos := w.lastPos.set 0 (getQ w.lastPos 0 + v * w.distanceScale) } : GCodes) g2 false
        (!false && w.limitAxes)) g2
    constructor
    · show getQ (loadFeedrate _ g2).moveBuffer (0 + AXES) = v * getQ w.extrusionFactors 0
      rw [fmb (0 + AXES) (by decide), amb (0 + AXES) (by decide), getQ]
      rw [getD_set_same _ _ _ _ ?hlt]
      case hlt =>
        simp only [List.length_set]
        rw [hppl]
        decide
      rw [hds, mul_one]
    · trivial


set_option maxRecDepth 8000 in
theorem m83ResetsAccumulatorsLikeM82_witness :
    seen ("M83".data) 'M' = some 0 ∧ strtolAt ("M83".data) 1 = 83 ∧
    getQ (setUpMove c9W ("G1 E5".data)).1.moveBuffer (0 + AXES)
      = 5 * getQ c9W.extrusionFactors 0 ∧
    (setUpMove c9W ("G1 E5".data)).1.moveAvailable = true := by
  have h := m83ResetsAccumulatorsLikeM82 initGCodes ("M83".data) ("M82".data) 0 0
    (by decide) (by decide) (by decide) (by decide) (by decide)
  have hc := h.2 c9W ("G1 E5".data) 5 3 (by decide) (by decide) (by decide) (by decide)
    (by decide) (by decide) (by with_unfolding_all decide) (by decide)
  exact ⟨by decide, by decide, hc.1, hc.2⟩

/-! ## C7: the Z-homing gate -/

/-- Claim C7: when only Z homing is requested, the platform requires X and Y
first, and X or Y is not homed, DoHome completes immediately with the
error reply, clears the homeZ request, invokes no macro and leaves the
homed flags (hence axisIsHomed[Z]) untouched; with X and Y homed the same
request hands the Z-homing macro to the canned-cycle engine. -/
theorem doHomeZGate (s : GCodes) (macroDone : Bool)
    (hz : s.homeZ = true) (hx : s.homeX = false) (hy : s.homeY = false)
    (hreq : s.mustHomeXYBeforeZ = true) :
    ((s.axisIsHomed.getD 0 false = false ∨ s.axisIsHomed.getD 1 false = false) →
      (doHome s macroDone).done = true ∧
      (doHome s macroDone).errorReply = some mustHomeFirstMsg ∧
      (doHome s macroDone).s.homeZ = false ∧
      (doHome s macroDone).invoked = none ∧
      (doHome s macroDone).s.axisIsHomed = s.axisIsHomed) ∧
    (s.axisIsHomed.getD 0 false = true → s.axisIsHomed.getD 1 false = true →
      (doHome s macroDone).invoked = some homeZFile) := by
  constructor
  · intro hnot
    rw [doHome]
    rw [if_neg (by rw [hx]; simp)]
    rw [if_neg (by rw [hx]; simp)]
    rw [if_neg (by rw [hy]; simp)]
    rw [if_pos (by rw [hz])]
    rw [if_pos ?gate]
    case gate =>
      refine ⟨by rw [hreq], ?_⟩
      rcases hnot with h | h
      · exact Or.inl (by rw [h]; simp)
      · exact Or.inr (by rw [h]; simp)
    exact ⟨rfl, rfl, rfl, rfl, rfl⟩
  · intro h0 h1
    rw [doHome]
    rw [if_neg (by rw [hx]; simp)]
    rw [if_neg (by rw [hx]; simp)]
    rw [if_neg (by rw [hy]; simp)]
    rw [if_pos (by rw [hz])]
    rw [if_neg ?gate2]
    case gate2 =>
      intro hcon
      rcases hcon.2 with h | h
      · exact h (by rw [h0])
      · exact h (by rw [h1])
    rcases macroDone with _ | _
    · rfl
    · rfl

theorem doHomeZGate_witness :
    ((doHome c7Bad false).done = true ∧
      (doHome c7Bad false).errorReply = some mustHomeFirstMsg ∧
      (doHome c7Bad false).s.homeZ = false ∧
      (doHome c7Bad false).s.axisIsHomed = c7Bad.axisIsHomed) ∧
    (doHome c7Good false).invoked = some homeZFile := by
  have hbad := (doHomeZGate c7Bad false (by decide) (by decide) (by decide) (by decide)).1
    (Or.inl (by decide))
  have hgood := (doHomeZGate c7Good false (by decide) (by decide) (by decide) (by decide)).2
    (by decide) (by decide)
  exact ⟨⟨hbad.1, hbad.2.1, hbad.2.2.1, hbad.2.2.2.2⟩, hgood⟩

/-! ## C4: serialization of endstop-checking moves -/

/-- Claim C4: endstop-checking moves are strictly serialized.  (a) Setting
up a G0/G1 carrying S1 publishes the endstop move (pending flag and
endstop flag raised) but returns retry and enters the waiting state;
(b) while waiting, as long as the Move Slot is still pending or the
planner is busy, the handler returns retry with the state bit-identical
(in particular, no new move is published); (c) once the gate passes, the
handler clears the waiting flag and completes without publishing; (d) over
any run of further invocations in which the planner never reports idle,
every single invocation returns retry and the waiting flag survives to
the end. -/
theorem endstopMovesSerialized (s : GCodes) (g : List Char) (i : Nat)
    (hw : s.waitingForMoveToComplete = false) (hma : s.moveAvailable = false)
    (hS : seen g 'S' = some i) (hone : strtolAt g (i + 1) = 1)
    (hE : seen g 'E' = none) :
    ((handleG01 s g).2 = false ∧
     (handleG01 s g).1.waitingForMoveToComplete = true ∧
     (handleG01 s g).1.moveAvailable = true ∧
     (handleG01 s g).1.checkEndStops = true) ∧
    (∀ t : GCodes, t.waitingForMoveToComplete = true →
      (t.moveAvailable = true ∨ t.plannerIdle = false) → handleG01 t g = (t, false)) ∧
    (∀ t : GCodes, t.waitingForMoveToComplete = true →
      t.moveAvailable = false → t.plannerIdle = true →
      handleG01 t g
        = ({ t with moveBuffer := t.plannerPos, waitingForMoveToComplete := false }, true)) ∧
    (∀ (envs : List (Bool × Bool × List ℚ)) (t : GCodes),
      t.waitingForMoveToComplete = true →
      (∀ e ∈ envs, e.2.1 = false) →
      (runG01 g t envs).2 = List.replicate envs.length false ∧
      (runG01 g t envs).1.waitingForMoveToComplete = true) := by
  have hload : ∀ (t : GCodes) (dg ap : Bool),
      loadMoveBufferFromGCode t g dg ap = (loadFeedrate (loadAxes t g dg ap) g, true) := by
    intro t dg ap
    rw [loadMoveBufferFromGCode, loadExtrusion_none t g dg hE]
  have hcepres : ∀ (t : GCodes) (dg ap : Bool),
      (loadFeedrate (loadAxes t g dg ap) g).checkEndStops = t.checkEndStops := by
    intro t dg ap
    obtain ⟨-, -, -, -, ace, -, -⟩ := loadAxes_frameAny t g dg ap
    obtain ⟨-, -, -, fce, -, -, -⟩ := loadFeedrate_frame (loadAxes t g dg ap) g
    rw [fce, ace]
  have hkey : ∀ t : GCodes, t.moveAvailable = false →
      (setUpMove t g).2 = 2 ∧
      (setUpMove t g).1.moveAvailable = true ∧
      (setUpMove t g).1.checkEndStops = true := by
    intro t hma2
    rw [setUpMove]
    simp only [hma2, Bool.false_eq_true, if_false, hS]
    rw [hone]
    rw [show (decide ((1 : Int) = 1)) = true from rfl]
    rw [hload]
    refine ⟨by simp, rfl, ?_⟩
    show (loadFeedrate (loadAxes _ g false (!true && t.limitAxes)) g).checkEndStops = true
    rw [hcepres]
  have partb : ∀ t : GCodes, t.waitingForMoveToComplete = true →
      (t.moveAvailable = true ∨ t.plannerIdle = false) → handleG01 t g = (t, false) := by
    intro t hwt hor
    have hnone : allMovesAreFinishedAndMoveBufferIsLoaded t = none := by
      rw [allMovesAreFinishedAndMoveBufferIsLoaded]
      rcases hor with hma1 | hpi
      · rw [if_pos hma1]
      · rcases hmat : t.moveAvailable with _ | _
        · rw [if_neg (by simp), if_pos (by rw [hpi]; simp)]
        · rw [if_pos rfl]
    rw [handleG01, if_pos hwt, hnone]
  refine ⟨?_, partb, ?_, ?_⟩
  · obtain ⟨h2, hmav, hces⟩ := hkey s hma
    refine ⟨?_, ?_, ?_, ?_⟩
    · rw [handleG01]
      simp only [hw, Bool.false_eq_true, if_false]
      rw [h2]
      rfl
    · rw [handleG01]
      simp only [hw, Bool.false_eq_true, if_false]
      rw [if_pos h2]
    · rw [handleG01]
      simp only [hw, Bool.false_eq_true, if_false]
      rw [if_pos h2]
      exact hmav
    · rw [handleG01]
      simp only [hw, Bool.false_eq_true, if_false]
      rw [if_pos h2]
      exact hces
  · intro t hwt hmaf hpit
    have hsome : allMovesAreFinishedAndMoveBufferIsLoaded t
        = some { t with moveBuffer := t.plannerPos } := by
      rw [allMovesAreFinishedAndMoveBufferIsLoaded]
      rw [if_neg (by rw [hmaf]; simp), if_neg (by rw [hpit]; simp)]
    rw [handleG01, if_pos hwt, hsome]
  · intro envs
    induction envs with
    | nil => intro t hwt _; exact ⟨rfl, hwt⟩
    | cons e es ih =>
      intro t hwt hall
      have hwenv : (applyEnv t e).waitingForMoveToComplete = true := by
        show (if e.1 = true then (readMove t).2 else t).waitingForMoveToComplete = true
        split
        · rw [readMove]
          split
          · exact hwt
          · exact hwt
        · exact hwt
      have hpienv : (applyEnv t e).plannerIdle = false := by
        show e.2.1 = false
        exact hall e (List.mem_cons_self e es)
      have hb := partb (applyEnv t e) hwenv (Or.inr hpienv)
      obtain ⟨ih1, ih2⟩ := ih (applyEnv t e) hwenv
        (fun x hx => hall x (List.mem_cons_of_mem e hx))
      rw [runG01]
      simp only [hb]
      refine ⟨?_, ih2⟩
      rw [ih1, List.length_cons, List.replicate_succ]

set_option maxRecDepth 8000 in
theorem endstopMovesSerialized_witness :
    (handleG01 initGCodes ("G1 X1 S1".data)).2 = false ∧
    (handleG01 initGCodes ("G1 X1 S1".data)).1.waitingForMoveToComplete = true ∧
    (handleG01 initGCodes ("G1 X1 S1".data)).1.checkEndStops = true ∧
    (runG01 ("G1 X1 S1".data) (handleG01 initGCodes ("G1 X1 S1".data)).1
        ((false, false, List.replicate 5 (0 : ℚ))
          :: (false, false, List.replicate 5 (0 : ℚ)) :: [])).2
      = false :: false :: [] := by
  have h := endstopMovesSerialized initGCodes ("G1 X1 S1".data) 6 (by decide) (by decide)
    (by decide) (by decide) (by decide)
  obtain ⟨⟨h1, h2, h3, h4⟩, hb, hc, hd⟩ := h
  have hrun := hd
    ((false, false, List.replicate 5 (0 : ℚ))
      :: (false, false, List.replicate 5 (0 : ℚ)) :: [])
    (handleG01 initGCodes ("G1 X1 S1".data)).1 h2
    (by
      intro e he
      simp only [List.mem_cons, List.not_mem_nil, or_false] at he
      rcases he with h | h <;> (subst h; rfl))
  exact ⟨h1, h2, h4, hrun.1.trans rfl⟩

/-! ## C8: the inch-toggle scenario -/

set_option maxRecDepth 8000 in
/-- The S1 scenario refutes the claimed feedrate: after `G20` then
`G1 X1 F60` the Move Slot feedrate slot holds 25.4 mm/s (F60 means 60
inches per minute here, and GetFValue times distanceScale times the
default speedFactor 1/60 gives 60 * 25.4 / 60), not 25.4/60 mm/s. -/
theorem inchScenarioCounterexample :
    getQ c8Run.moveBuffer DRIVES = 127 / 5 ∧
    ¬getQ c8Run.moveBuffer DRIVES = 127 / 300 := by
  constructor
  · with_unfolding_all decide
  · with_unfolding_all decide

set_option maxRecDepth 8000 in
/-- Claim C8 (amended): feeding `G20` then `G1 X1 F60` from the initial
state leaves the Move Slot pending with X target 25.4 mm and feedrate
25.4 mm/s (= 127/5). -/
theorem inchScenarioMoveSlot :
    getQ c8Run.moveBuffer 0 = 127 / 5 ∧
    getQ c8Run.moveBuffer DRIVES = 127 / 5 ∧
    c8Run.moveAvailable = true := by
  refine ⟨?_, ?_, ?_⟩
  · with_unfolding_all decide
  · with_unfolding_all decide
  · with_unfolding_all decide

/-! ## C5: Spin priority keeps the file source still while the web talks -/

theorem webDrain_frame {α : Type} (act : α → α × Bool) (writeG : α → α) :
    ∀ (fuel : Nat) (sys : SpinSys α) (consumed : Nat),
      (webDrain act writeG sys consumed fuel).ranFilePrint = false ∧
      (webDrain act writeG sys consumed fuel).sys.filePos = sys.filePos ∧
      (webDrain act writeG sys consumed fuel).webConsumed ≤ consumed + fuel := by
  intro fuel
  induction fuel with
  | zero =>
    intro sys consumed
    refine ⟨rfl, rfl, ?_⟩
    show consumed ≤ consumed + 0
    omega
  | succ fuel ih =>
    intro sys consumed
    rw [webDrain]
    rcases hq : sys.webQueue with _ | ⟨b, rest⟩
    · simp only [hq]
      refine ⟨trivial, trivial, ?_⟩
      show consumed ≤ consumed + (fuel + 1)
      omega
    · simp only [hq]
      split
      · split
        · refine ⟨rfl, rfl, ?_⟩
          show consumed + 1 ≤ consumed + (fuel + 1)
          omega
        · refine ⟨rfl, rfl, ?_⟩
          show consumed + 1 ≤ consumed + (fuel + 1)
          omega
      · obtain ⟨h1, h2, h3⟩ :=
          ih ({ sys with webBuf := (put sys.webBuf b).buf, webQueue := rest }) (consumed + 1)
        exact ⟨h1, h2, le_trans h3 (by omega)⟩

/-- Claim C5: in any single Spin invocation with no buffer already active
and bytes waiting on the web transport, at most 16 web bytes are drained,
DoFilePrint is never reached, and the file read position does not advance
(for any dispatcher, file writer and HTML writer). -/
theorem spinWebBlocksFilePrint {α : Type} (act : α → α × Bool) (writeG : α → α)
    (writeHtml : Char → α → α) (sys : SpinSys α)
    (hw : sys.webActive = false) (hs : sys.serialActive = false)
    (hf : sys.fileActive = false) (hq : ¬sys.webQueue.isEmpty) :
    (spin act writeG writeHtml sys).ranFilePrint = false ∧
    (spin act writeG writeHtml sys).sys.filePos = sys.filePos ∧
    (spin act writeG writeHtml sys).webConsumed ≤ 16 := by
  rw [spin]
  rw [if_neg (by rw [hw]; simp), if_neg (by rw [hs]; simp), if_neg (by rw [hf]; simp),
    if_pos hq]
  obtain ⟨h1, h2, h3⟩ := webDrain_frame act writeG 16 sys 0
  exact ⟨h1, h2, by omega⟩

theorem spinWebBlocksFilePrint_witness :
    (spin (fun u => (u, true)) id (fun _ u => u) c5Sys).ranFilePrint = false ∧
    (spin (fun u => (u, true)) id (fun _ u => u) c5Sys).sys.filePos = c5Sys.filePos ∧
    (spin (fun u => (u, true)) id (fun _ u => u) c5Sys).webConsumed ≤ 16 :=
  spinWebBlocksFilePrint (fun u => (u, true)) id (fun _ u => u) c5Sys
    (by decide) (by decide) (by decide) (by decide)

end RepRap
